import Mathlib

/-!
# MetysAI bridge: launcher (`main.go`) and standalone server (`server.go`)

A shallow embedding of the two Go programs of the repository.

* Everything the programs obtain from the operating system or from the Go
  standard library at run time (JSON decoding of the request body,
  `filepath.Abs`, the outcome of running the external tool, whether a write to
  the client fails, `os.Stat`, `net.Listen`, ...) is a field of an environment
  record; the handlers and `main` are pure functions of that environment.
* Side effects are recorded, in program order, in a list of `Event`s.
* Errors (`error` values) are modelled by their message text.
* What the external tool prints, and the text of the error of running it, are
  Go strings, that is byte sequences; they need not be valid UTF-8. A JSON body
  is kept as the ordered list of its members, each value given by the UTF-8
  bytes of the string the document denotes: the encoder keeps valid UTF-8 and
  puts U+FFFD in the place of every byte that is not part of a valid
  sequence. The escaping that does not change the denoted string is not
  modelled.
* `http.ResponseWriter` is modelled after the writer of `net/http`: the header
  map, the status code and the copy of the header map committed by the first
  `WriteHeader`/`Write`, the payloads accepted by `Write`, and the error of a
  failed write, which makes all later writes fail.
* The goroutine that serves HTTP is one event, `Event.serve`; what it does
  concurrently with the wait on the front-end is not part of the trace.
-/

namespace MetysAI

/-! ## Data model -/

/-- Constant `CREATE_NEW_PROCESS_GROUP` of `main.go`. -/
def CREATE_NEW_PROCESS_GROUP : Nat := 0x00000200

/-- Constant `CREATE_NO_WINDOW` of `main.go`. -/
def CREATE_NO_WINDOW : Nat := 0x08000000

/-- One byte of a Go string. -/
abbrev Byte := Fin 256

/-- Bytes of an ASCII string literal. -/
def ascii (s : String) : List Byte :=
  s.data.map (fun c => Fin.ofNat c.toNat)

/-- Request body: a JSON object with members `filepath` and `params`. -/
structure Radare2Request where
  FilePath : String
  Params : List String
deriving DecidableEq, Repr

/-- Response body; `Error` carries the tag `json:"error,omitempty"`. Both
fields are Go strings. -/
structure Radare2Response where
  Output : List Byte
  Error : List Byte
deriving DecidableEq, Repr

/-- Table `first` of package `unicode/utf8` for a leading byte of 0x80 or more:
the length of the sequence it starts and the range accepted for the second
byte, or `none` for a byte that starts no sequence. -/
def firstByte (s0 : Byte) : Option (Nat × Nat × Nat) :=
  if s0.val < 0xC2 then none
  else if s0.val < 0xE0 then some (2, 0x80, 0xBF)
  else if s0.val = 0xE0 then some (3, 0xA0, 0xBF)
  else if s0.val < 0xED then some (3, 0x80, 0xBF)
  else if s0.val = 0xED then some (3, 0x80, 0x9F)
  else if s0.val < 0xF0 then some (3, 0x80, 0xBF)
  else if s0.val = 0xF0 then some (4, 0x90, 0xBF)
  else if s0.val < 0xF4 then some (4, 0x80, 0xBF)
  else if s0.val = 0xF4 then some (4, 0x80, 0x8F)
  else none

/-- Library function `utf8.DecodeRuneInString`, as far as the JSON encoder uses
it: `some size` when the bytes start with a valid encoding of that size, `none`
when the function returns `RuneError` with size 1. -/
def decodeRune : List Byte → Option Nat
  | [] => none
  | s0 :: rest =>
    if s0.val < 0x80 then some 1
    else
      match firstByte s0 with
      | none => none
      | some (sz, lo, hi) =>
        match rest with
        | [] => none
        | s1 :: r1 =>
          if s1.val < lo ∨ hi < s1.val then none
          else if sz ≤ 2 then some 2
          else
            match r1 with
            | [] => none
            | s2 :: r2 =>
              if s2.val < 0x80 ∨ 0xBF < s2.val then none
              else if sz ≤ 3 then some 3
              else
                match r2 with
                | [] => none
                | s3 :: _ =>
                  if s3.val < 0x80 ∨ 0xBF < s3.val then none else some 4

/-- The loop of the JSON encoder over the bytes of a Go string, reduced to the
string the output denotes: `skip` bytes that belong to the sequence decoded
last are copied, then a byte at which `decodeRune` fails is replaced by the
encoding of U+FFFD and a valid sequence is copied. -/
def replaceInvalid : Nat → List Byte → List Byte
  | _, [] => []
  | skip + 1, b :: rest => b :: replaceInvalid skip rest
  | 0, b :: rest =>
    match decodeRune (b :: rest) with
    | none => 0xEF :: 0xBF :: 0xBD :: replaceInvalid 0 rest
    | some n => b :: replaceInvalid (n - 1) rest

/-- UTF-8 bytes of the JSON string the encoder emits for a Go string. -/
def jsonValue (s : List Byte) : List Byte :=
  replaceInvalid 0 s

/-- Validity of the bytes after `skip` bytes of a sequence decoded before. -/
def validFrom : Nat → List Byte → Bool
  | _, [] => true
  | skip + 1, _ :: rest => validFrom skip rest
  | 0, b :: rest =>
    match decodeRune (b :: rest) with
    | none => false
    | some n => validFrom (n - 1) rest

/-- Library function `utf8.ValidString`: the bytes are a sequence of valid
encodings. -/
def validUTF8 (s : List Byte) : Bool :=
  validFrom 0 s

/-- Members of the JSON object the encoder emits for a `Radare2Response`, in
field order: `output` always, `error` only when it is not the empty string
(`omitempty`). -/
def Radare2Response.members (resp : Radare2Response) : List (String × List Byte) :=
  ("output", jsonValue resp.Output) ::
    (if resp.Error = [] then [] else [("error", jsonValue resp.Error)])

/-- The response value the handlers build from the result of `CombinedOutput`:
`Output` is the capture, `Error` is set when the invocation returned an error. -/
def buildResponse (output : List Byte) (err : Option (List Byte)) : Radare2Response :=
  match err with
  | some e => { Output := output, Error := ascii "radare2 error: " ++ e }
  | none => { Output := output, Error := [] }

/-- The fields of `syscall.SysProcAttr` that `main.go` sets. -/
structure SysProcAttr where
  HideWindow : Bool
  CreationFlags : Nat
deriving DecidableEq, Repr

/-- Observable side effects, in program order. -/
inductive Event where
  /-- Message of a `log.Printf` / `log.Println` call. -/
  | log (msg : String)
  /-- Message of a `log.Printf` call whose arguments are raw bytes. -/
  | logBytes (msg : List Byte)
  /-- Message of `log.Fatalf`, which then exits the process with status 1. -/
  | fatal (msg : String)
  /-- The request body is handed to the JSON decoder. -/
  | decode
  /-- One run of `exec.Command(name, args...).CombinedOutput()`. -/
  | run (name : String) (args : List String) (attr : Option SysProcAttr)
  /-- The call `frontendCmd.Start()` for executable `path` with working directory `dir`. -/
  | start (path dir : String)
  /-- The call `net.Listen(network, address)`. -/
  | listen (network address : String)
  /-- The goroutine that registers the handler under `pattern` and serves on the listener. -/
  | serve (pattern : String)
  /-- The call `frontendCmd.Wait()`. -/
  | wait
  /-- The call `frontendCmd.Wait()` has blocked until the child `pid` exited. -/
  | exited (pid : Nat)
deriving DecidableEq, Repr

/-- Argument vectors of the external-tool runs recorded in a trace. -/
def invocations : List Event → List (String × List String)
  | [] => []
  | Event.run name args _ :: es => (name, args) :: invocations es
  | _ :: es => invocations es

/-- Network and address of the bind attempts recorded in a trace. -/
def listens : List Event → List (String × String)
  | [] => []
  | Event.listen network address :: es => (network, address) :: listens es
  | _ :: es => listens es

/-- Rendering of a `[]string` by the verb `%v`: elements separated by one
space, inside square brackets. -/
def fmtStrings (xs : List String) : String :=
  "[" ++ " ".intercalate xs ++ "]"

/-! ## The response writer -/

/-- What a single write puts into the response body. -/
inductive Payload where
  /-- Plain text. -/
  | text (s : String)
  /-- One JSON object, given by its members in order. -/
  | json (members : List (String × List Byte))
deriving DecidableEq, Repr

/-- Model of the `http.ResponseWriter` of `net/http`. `header` is the map
returned by `Header()`; `status` and `sent` are the status code and the copy of
the header map committed by the first `WriteHeader` or `Write`; `body` holds
the payloads `Write` accepted; `werr` is the error of a failed write. -/
structure ResponseWriter where
  header : List (String × String)
  status : Option Nat
  body : List Payload
  sent : List (String × String)
  werr : Option String
deriving DecidableEq, Repr

/-- A writer nothing has been written to. -/
def ResponseWriter.fresh : ResponseWriter :=
  { header := [], status := none, body := [], sent := [], werr := none }

/-- `Header.Set`: replaces the values associated with `key`. -/
def setHeader (h : List (String × String)) (key value : String) : List (String × String) :=
  h.filter (fun kv => kv.1 != key) ++ [(key, value)]

/-- `w.Header().Set(key, value)`. -/
def ResponseWriter.Set (w : ResponseWriter) (key value : String) : ResponseWriter :=
  { w with header := setHeader w.header key value }

/-- `w.Header().Get(key)`. -/
def ResponseWriter.Get (w : ResponseWriter) (key : String) : Option String :=
  w.header.lookup key

/-- `w.WriteHeader(code)`: the first call commits the status and the header
map as it is then; later calls are ignored. -/
def ResponseWriter.WriteHeader (w : ResponseWriter) (code : Nat) : ResponseWriter :=
  match w.status with
  | none => { w with status := some code, sent := w.header }
  | some _ => w

/-- `w.Write(p)`: commits status 200 if no status was committed before; then
the write fails if an earlier write failed or if `failure` says so, and
otherwise the payload is accepted. Returns the writer and the error. -/
def ResponseWriter.Write (w : ResponseWriter) (p : Payload) (failure : Option String) :
    ResponseWriter × Option String :=
  let w1 := w.WriteHeader 200
  match w1.werr with
  | some e => (w1, some e)
  | none =>
    match failure with
    | some e => ({ w1 with werr := some e }, some e)
    | none => ({ w1 with body := w1.body ++ [p] }, none)

/-- Library routine `http.Error(w, msg, code)`: plain-text content type,
`nosniff`, the status code, then the message followed by a newline; the result
of writing the message is ignored. -/
def httpError (w : ResponseWriter) (msg : String) (code : Nat) : ResponseWriter :=
  let w1 := w.Set "Content-Type" "text/plain; charset=utf-8"
  let w2 := w1.Set "X-Content-Type-Options" "nosniff"
  let w3 := w2.WriteHeader code
  (w3.Write (Payload.text (msg ++ "\n")) none).1

/-- The three CORS headers are present with the values the handlers give them. -/
def hasCORS (w : ResponseWriter) : Prop :=
  w.Get "Access-Control-Allow-Origin" = some "*" ∧
  w.Get "Access-Control-Allow-Methods" = some "POST, OPTIONS" ∧
  w.Get "Access-Control-Allow-Headers" = some "Content-Type"

/-- The three CORS headers are among the headers committed with the status. -/
def sentCORS (w : ResponseWriter) : Prop :=
  w.sent.lookup "Access-Control-Allow-Origin" = some "*" ∧
  w.sent.lookup "Access-Control-Allow-Methods" = some "POST, OPTIONS" ∧
  w.sent.lookup "Access-Control-Allow-Headers" = some "Content-Type"

/-- The response recorded in a writer: the committed status code, the
`Content-Type` header committed with it, and the body. -/
def response (w : ResponseWriter) : Option Nat × Option String × List Payload :=
  (w.status, w.sent.lookup "Content-Type", w.body)

/-! ## The request handler -/

/-- The part of `*http.Request` the handler reads. -/
structure Request where
  method : String
  body : String
deriving DecidableEq, Repr

/-- What the handler obtains from outside. -/
structure HandlerEnv where
  /-- Value of `runtime.GOOS`. -/
  goos : String
  /-- Result of `json.NewDecoder(r.Body).Decode(&req)` on a body. -/
  decode : String → Except String Radare2Request
  /-- Result of `filepath.Abs`. -/
  abs : String → Except String String
  /-- Result of `CombinedOutput` for a command name and arguments: the captured
  combined output and the text of the error, if any. -/
  combinedOutput : String → List String → List Byte × Option (List Byte)
  /-- Error of the `Write` by which `json.NewEncoder(w).Encode(resp)` hands the
  encoded document to the writer, if that write fails. Encoding a structure of
  two strings has no other way to fail. -/
  writeErr : Payload → Option String

/-- Path of the external tool, relative to the working directory. -/
def toolPath : String := "./tools/radare2-5.9.8-w64/bin/radare2.exe"

/-- The three `Header().Set` calls that open both handlers. -/
def addCORS (w : ResponseWriter) : ResponseWriter :=
  ((w.Set "Access-Control-Allow-Origin" "*").Set
    "Access-Control-Allow-Methods" "POST, OPTIONS").Set
    "Access-Control-Allow-Headers" "Content-Type"

/-- The tail shared by both handlers, from `cmd.CombinedOutput()` on: build the
response, log, set the content type, encode into the writer, and on an error
of the encoder log it and call `http.Error` with 500. `pre` is the trace so
far, `attr` the `SysProcAttr` of the command. -/
def runAndRespond (env : HandlerEnv) (w : ResponseWriter) (pre : List Event)
    (args : List String) (attr : Option SysProcAttr) : ResponseWriter × List Event :=
  let res := env.combinedOutput toolPath args
  let output := res.1
  let resp := buildResponse output res.2
  let logged : Event :=
    match res.2 with
    | some err =>
      Event.logBytes (ascii "Error running radare2: " ++ err ++ ascii "\nOutput: " ++ output)
    | none => Event.logBytes (ascii "radare2 output: " ++ output)
  let w1 := w.Set "Content-Type" "application/json"
  let tr := pre ++ [Event.run toolPath args attr, logged]
  let doc := Payload.json resp.members
  let written := w1.Write doc (env.writeErr doc)
  match written.2 with
  | some err =>
    (httpError written.1 "Internal server error" 500,
      tr ++ [Event.log ("Error encoding response: " ++ err)])
  | none => (written.1, tr)

end MetysAI

namespace MetysAI.Launcher

open MetysAI

/-- Function `radare2Handler` of `main.go`. Returns the writer after the call and
the trace of side effects. -/
def radare2Handler (env : HandlerEnv) (w : ResponseWriter) (r : Request) :
    ResponseWriter × List Event :=
  let w0 := addCORS w
  if r.method = "OPTIONS" then
    (w0.WriteHeader 200, [])
  else
    match env.decode r.body with
    | Except.error _ => (httpError w0 "Invalid request" 400, [Event.decode])
    | Except.ok req =>
      match env.abs req.FilePath with
      | Except.error err =>
        (httpError w0 ("Invalid file path: " ++ err) 400,
          [Event.decode, Event.log ("Error getting absolute path: " ++ err)])
      | Except.ok absPath =>
        let args := req.Params ++ [absPath]
        let pre := [Event.decode,
          Event.log ("Running radare2 command with args: " ++ fmtStrings args)]
        let attr : Option SysProcAttr :=
          if env.goos = "windows" then
            some { HideWindow := true,
                   CreationFlags := CREATE_NEW_PROCESS_GROUP ||| CREATE_NO_WINDOW }
          else none
        runAndRespond env w0 pre args attr

end MetysAI.Launcher

namespace MetysAI.Server

open MetysAI

/-- Function `radare2Handler` of `server.go`: as in `main.go`, without the
`SysProcAttr` block. -/
def radare2Handler (env : HandlerEnv) (w : ResponseWriter) (r : Request) :
    ResponseWriter × List Event :=
  let w0 := addCORS w
  if r.method = "OPTIONS" then
    (w0.WriteHeader 200, [])
  else
    match env.decode r.body with
    | Except.error _ => (httpError w0 "Invalid request" 400, [Event.decode])
    | Except.ok req =>
      match env.abs req.FilePath with
      | Except.error err =>
        (httpError w0 ("Invalid file path: " ++ err) 400,
          [Event.decode, Event.log ("Error getting absolute path: " ++ err)])
      | Except.ok absPath =>
        let args := req.Params ++ [absPath]
        let pre := [Event.decode,
          Event.log ("Running radare2 command with args: " ++ fmtStrings args)]
        runAndRespond env w0 pre args none

end MetysAI.Server

namespace MetysAI.Launcher

open MetysAI

/-! ## The launcher (`main` of `main.go`) -/

/-- What `main` obtains from outside. -/
structure LaunchEnv where
  /-- Result of `os.Executable()`. -/
  executable : Except String String
  /-- Result of `os.Getwd()`. -/
  getwd : Except String String
  /-- Library function `filepath.Dir`. -/
  dir : String → String
  /-- Library function `filepath.Join`. -/
  join : List String → String
  /-- Filesystem state as seen by `os.Stat`: an error, or the value of `IsDir()`. -/
  stat : String → Except String Bool
  /-- Result of `Start()` for an executable and working directory: the child's PID. -/
  start : String → String → Except String Nat
  /-- Result of `net.Listen(network, address)`. -/
  listen : String → String → Except String Unit
  /-- Error returned by `frontendCmd.Wait()` once the started child has exited,
  if any. -/
  wait : Option String

/-- Variable `exeDir`: directory of the executable, the working directory when
the executable path is unknown, the empty string when both are unknown. -/
def exeDir (env : LaunchEnv) : String :=
  match env.executable with
  | Except.error _ =>
    match env.getwd with
    | Except.error _ => ""
    | Except.ok cwd => cwd
  | Except.ok exePath => env.dir exePath

/-- Variable `cwd` of the second `os.Getwd()` call (empty on error). -/
def cwd (env : LaunchEnv) : String :=
  match env.getwd with
  | Except.error _ => ""
  | Except.ok d => d

/-- Log lines written while `exeDir` and `cwd` are determined. -/
def setupLog (env : LaunchEnv) : List Event :=
  (match env.executable with
    | Except.error exeErr =>
      Event.log ("Error getting executable path: " ++ exeErr) ::
        (match env.getwd with
          | Except.error wdErr => [Event.log ("Error getting working directory: " ++ wdErr)]
          | Except.ok _ => [])
    | Except.ok _ => []) ++
  (match env.getwd with
    | Except.error wdErr => [Event.log ("Error getting working directory: " ++ wdErr)]
    | Except.ok _ => [])

/-- Slice `candidates`: the five locations probed, in order. -/
def candidates (env : LaunchEnv) : List String :=
  [ env.join [exeDir env, "..", "dist", "win-unpacked", "AI-Disassembler.exe"],
    env.join [exeDir env, "dist", "win-unpacked", "AI-Disassembler.exe"],
    env.join [exeDir env, "app", "dist", "win-unpacked", "AI-Disassembler.exe"],
    env.join [cwd env, "dist", "win-unpacked", "AI-Disassembler.exe"],
    env.join [cwd env, "app", "dist", "win-unpacked", "AI-Disassembler.exe"] ]

/-- The test of the loop body: `os.Stat(p)` succeeds and `!info.IsDir()`. -/
def isRegular (stat : String → Except String Bool) (p : String) : Bool :=
  match stat p with
  | Except.ok isDir => !isDir
  | Except.error _ => false

/-- The discovery loop: value of `frontendExe` after `for _, p := range candidates`,
which starts as the empty string and is assigned, with `break`, at the first
candidate passing the test. -/
def frontendExe (stat : String → Except String Bool) : List String → String
  | [] => ""
  | p :: ps => if isRegular stat p then p else frontendExe stat ps

/-- Function `main` of `main.go`: the trace of side effects and the exit status.
`Wait` on a command whose `Start` failed returns the error `exec: not started`
at once; otherwise it blocks until the child has exited. -/
def main (env : LaunchEnv) : List Event × Nat :=
  let exe := frontendExe env.stat (candidates env)
  if exe = "" then
    (setupLog env ++
      [Event.fatal ("Could not find frontend executable; tried: " ++
        fmtStrings (candidates env))], 1)
  else
    let workDir := env.dir exe
    let started : Event :=
      match env.start exe workDir with
      | Except.error startErr => Event.log ("Error launching frontend: " ++ startErr)
      | Except.ok pid => Event.log ("Frontend process started with PID: " ++ toString pid)
    let server : Event :=
      match env.listen "tcp" ":8080" with
      | Except.error _ => Event.log "Port 8080 already in use, assuming server is running"
      | Except.ok _ => Event.serve "/radare2"
    let waited : List Event :=
      match env.start exe workDir with
      | Except.error _ => [Event.log "Frontend exited with error: exec: not started"]
      | Except.ok pid =>
        Event.exited pid ::
          (match env.wait with
            | some waitErr => [Event.log ("Frontend exited with error: " ++ waitErr)]
            | none => [])
    (setupLog env ++
      [Event.log ("Launching frontend: " ++ exe), Event.start exe workDir, started,
        Event.listen "tcp" ":8080", server, Event.wait] ++ waited, 0)

/-! ## Sample launcher environments -/

/-- A launcher environment: the executable is `/opt/bridge/bridge`, the working
directory is `/work`, paths are joined with `/`, the regular files are those in
`files` and `/work/dist` is a directory, the child gets PID 4242, and the port
is free exactly when `portFree`. -/
def launchEnv (files : List String) (portFree : Bool) : LaunchEnv where
  executable := Except.ok "/opt/bridge/bridge"
  getwd := Except.ok "/work"
  dir := fun p =>
    if p = "/opt/bridge/bridge" then "/opt/bridge"
    else if p = "/opt/bridge/dist/win-unpacked/AI-Disassembler.exe" then
      "/opt/bridge/dist/win-unpacked"
    else if p = "/work/dist/win-unpacked/AI-Disassembler.exe" then "/work/dist/win-unpacked"
    else "."
  join := fun xs => "/".intercalate xs
  stat := fun p =>
    if p ∈ files then Except.ok false
    else if p = "/work/dist" then Except.ok true
    else Except.error "no such file or directory"
  start := fun _ _ => Except.ok 4242
  listen := fun _ _ =>
    if portFree then Except.ok () else Except.error "address already in use"
  wait := none

/-- The fourth candidate is a regular file that cannot be executed, and the
port is held by another process. -/
def notExecutableEnv : LaunchEnv :=
  { launchEnv ["/work/dist/win-unpacked/AI-Disassembler.exe"] false with
    start := fun _ _ =>
      Except.error
        "fork/exec /work/dist/win-unpacked/AI-Disassembler.exe: permission denied" }

end MetysAI.Launcher

namespace MetysAI

/-! ## Sample handler environments -/

/-- A Unix-like handler environment with working directory `/work`: bodies are
decoded by a two-entry table, paths are resolved against `/work`, the path
with a NUL character does not resolve, and the tool prints `arch x86` and
exits with status 0. -/
def workEnv : HandlerEnv where
  goos := "windows"
  decode := fun body =>
    if body = "\x7b\"filepath\": \"sample.bin\", \"params\": [\"-q\", \"-c\", \"i\"]\x7d" then
      Except.ok { FilePath := "sample.bin", Params := ["-q", "-c", "i"] }
    else if body = "\x7b\"filepath\": \"a\\u0000b\", \"params\": []\x7d" then
      Except.ok { FilePath := "a\x00b", Params := [] }
    else Except.error "invalid character"
  abs := fun p =>
    if p = "a\x00b" then Except.error "invalid argument"
    else Except.ok ("/work/" ++ p)
  combinedOutput := fun _ _ => (ascii "arch x86\n", none)
  writeErr := fun _ => none

/-- As `workEnv`, but the tool prints a message and exits with status 1. -/
def failingToolEnv : HandlerEnv :=
  { workEnv with
    combinedOutput := fun _ _ => (ascii "Cannot open file\n", some (ascii "exit status 1")) }

/-- As `workEnv`, but the tool prints `a`, the byte 0xFF and `b`. -/
def rawByteEnv : HandlerEnv :=
  { workEnv with combinedOutput := fun _ _ => ([0x61, 0xFF, 0x62], none) }

/-- As `workEnv`, but the tool prints 5000 times `A`, and the client has gone
away: the write of the encoded document fails. -/
def brokenPipeEnv : HandlerEnv :=
  { workEnv with
    combinedOutput := fun _ _ => (List.replicate 5000 0x41, none)
    writeErr := fun _ => some "write tcp 127.0.0.1:8080->127.0.0.1:50412: write: broken pipe" }

/-- As `failingToolEnv`, but the tool prints `a`, the byte 0xFF and `b`. -/
def failingRawByteEnv : HandlerEnv :=
  { workEnv with
    combinedOutput := fun _ _ => ([0x61, 0xFF, 0x62], some (ascii "exit status 1")) }

/-- As `failingToolEnv`, but the tool prints 5000 times `A`, and the write of
the encoded document fails. -/
def failingBrokenPipeEnv : HandlerEnv :=
  { workEnv with
    combinedOutput := fun _ _ => (List.replicate 5000 0x41, some (ascii "exit status 1"))
    writeErr := fun _ => some "write tcp 127.0.0.1:8080->127.0.0.1:50412: write: broken pipe" }

/-- A handler environment with working directory `/work` whose decoder, like
`json.Decoder.Decode`, takes the first JSON value of the body and fills the
members it finds: the empty object leaves the request at its zero value, and
what follows the first value is not looked at. The empty path resolves to the
working directory. -/
def lenientEnv : HandlerEnv where
  goos := "windows"
  decode := fun body =>
    if body = "\x7b\x7d" then Except.ok { FilePath := "", Params := [] }
    else if body = "\x7b\"filepath\": \"sample.bin\"\x7d trailing garbage" then
      Except.ok { FilePath := "sample.bin", Params := [] }
    else Except.error "invalid character"
  abs := fun p => if p = "" then Except.ok "/work" else Except.ok ("/work/" ++ p)
  combinedOutput := fun _ _ => (ascii "arch x86\n", none)
  writeErr := fun _ => none

/-- The request of the concrete scenario. -/
def sampleRequest : Request :=
  { method := "POST",
    body := "\x7b\"filepath\": \"sample.bin\", \"params\": [\"-q\", \"-c\", \"i\"]\x7d" }

/-- The request whose path does not resolve. -/
def nulRequest : Request :=
  { method := "POST", body := "\x7b\"filepath\": \"a\\u0000b\", \"params\": []\x7d" }

end MetysAI

namespace MetysAI

/-! ## Lemmas on the response writer -/

theorem lookup_filter_self (h : List (String × String)) (k : String) :
    (h.filter (fun kv => kv.1 != k)).lookup k = none := by
  induction h with
  | nil => rfl
  | cons kv t ih =>
    obtain ⟨a, b⟩ := kv
    by_cases hk : a = k
    · rw [List.filter_cons_of_neg (by simp [hk])]
      exact ih
    · rw [List.filter_cons_of_pos (by simp [hk]), List.lookup_cons]
      have hb : (k == a) = false := by simp [Ne.symm hk]
      rw [hb]
      exact ih

theorem lookup_filter_of_ne (h : List (String × String)) (k k2 : String) (hne : k2 ≠ k) :
    (h.filter (fun kv => kv.1 != k)).lookup k2 = h.lookup k2 := by
  induction h with
  | nil => rfl
  | cons kv t ih =>
    obtain ⟨a, b⟩ := kv
    by_cases hk : a = k
    · rw [List.filter_cons_of_neg (by simp [hk]), List.lookup_cons]
      have hb : (k2 == a) = false := by simp [hk, hne]
      rw [hb]
      exact ih
    · rw [List.filter_cons_of_pos (by simp [hk]), List.lookup_cons, List.lookup_cons, ih]

theorem lookup_setHeader_self (h : List (String × String)) (k v : String) :
    (setHeader h k v).lookup k = some v := by
  unfold setHeader
  rw [List.lookup_append, lookup_filter_self]
  simp [List.lookup]

theorem lookup_setHeader_of_ne (h : List (String × String)) (k v k2 : String)
    (hne : k2 ≠ k) : (setHeader h k v).lookup k2 = h.lookup k2 := by
  unfold setHeader
  rw [List.lookup_append, lookup_filter_of_ne h k k2 hne]
  have hb : (k2 == k) = false := by simp [hne]
  simp [List.lookup, hb]

@[simp] theorem Get_Set_self (w : ResponseWriter) (k v : String) :
    (w.Set k v).Get k = some v :=
  lookup_setHeader_self w.header k v

theorem Get_Set_of_ne (w : ResponseWriter) (k v k2 : String) (hne : k2 ≠ k) :
    (w.Set k v).Get k2 = w.Get k2 :=
  lookup_setHeader_of_ne w.header k v k2 hne

@[simp] theorem header_WriteHeader (w : ResponseWriter) (code : Nat) :
    (w.WriteHeader code).header = w.header := by
  unfold ResponseWriter.WriteHeader
  cases w.status <;> rfl

@[simp] theorem body_WriteHeader (w : ResponseWriter) (code : Nat) :
    (w.WriteHeader code).body = w.body := by
  unfold ResponseWriter.WriteHeader
  cases w.status <;> rfl

@[simp] theorem werr_WriteHeader (w : ResponseWriter) (code : Nat) :
    (w.WriteHeader code).werr = w.werr := by
  unfold ResponseWriter.WriteHeader
  cases w.status <;> rfl

theorem WriteHeader_of_none (w : ResponseWriter) (code : Nat) (hs : w.status = none) :
    (w.WriteHeader code).status = some code ∧ (w.WriteHeader code).sent = w.header := by
  unfold ResponseWriter.WriteHeader
  rw [hs]
  exact ⟨rfl, rfl⟩

theorem WriteHeader_of_some (w : ResponseWriter) (code s : Nat) (hs : w.status = some s) :
    w.WriteHeader code = w := by
  unfold ResponseWriter.WriteHeader
  rw [hs]

@[simp] theorem Get_WriteHeader (w : ResponseWriter) (code : Nat) (k : String) :
    (w.WriteHeader code).Get k = w.Get k := by
  unfold ResponseWriter.Get
  rw [header_WriteHeader]

theorem Write_fields (w : ResponseWriter) (p : Payload) (f : Option String) :
    (w.Write p f).1.header = w.header ∧
    (w.Write p f).1.status = (w.WriteHeader 200).status ∧
    (w.Write p f).1.sent = (w.WriteHeader 200).sent := by
  unfold ResponseWriter.Write
  simp only
  cases hw : (w.WriteHeader 200).werr with
  | some e => simp
  | none => cases f <;> simp

@[simp] theorem Get_Write (w : ResponseWriter) (p : Payload) (f : Option String)
    (k : String) : (w.Write p f).1.Get k = w.Get k := by
  unfold ResponseWriter.Get
  rw [(Write_fields w p f).1]

theorem Write_ok (w : ResponseWriter) (p : Payload) (he : w.werr = none) :
    (w.Write p none).1.body = w.body ++ [p] ∧ (w.Write p none).1.werr = none ∧
    (w.Write p none).2 = none := by
  unfold ResponseWriter.Write
  simp [he]

theorem Write_failed (w : ResponseWriter) (p : Payload) (e : String) (he : w.werr = none) :
    (w.Write p (some e)).1.body = w.body ∧ (w.Write p (some e)).1.werr = some e ∧
    (w.Write p (some e)).2 = some e := by
  unfold ResponseWriter.Write
  simp [he]

theorem Write_after_failure (w : ResponseWriter) (p : Payload) (f : Option String)
    (e : String) (he : w.werr = some e) : (w.Write p f).1.body = w.body := by
  unfold ResponseWriter.Write
  simp [he]

theorem Get_httpError_of_ne (w : ResponseWriter) (msg : String) (code : Nat) (k : String)
    (h1 : k ≠ "Content-Type") (h2 : k ≠ "X-Content-Type-Options") :
    (httpError w msg code).Get k = w.Get k := by
  unfold httpError
  simp only [Get_Write, Get_WriteHeader]
  rw [Get_Set_of_ne _ _ _ _ h2, Get_Set_of_ne _ _ _ _ h1]

theorem httpError_of_committed (w : ResponseWriter) (msg : String) (code s : Nat)
    (hs : w.status = some s) :
    (httpError w msg code).status = some s ∧ (httpError w msg code).sent = w.sent := by
  unfold httpError
  simp only
  have h2 : ((w.Set "Content-Type" "text/plain; charset=utf-8").Set
      "X-Content-Type-Options" "nosniff").status = some s := hs
  obtain ⟨_, h3, h4⟩ := Write_fields
    (((w.Set "Content-Type" "text/plain; charset=utf-8").Set
      "X-Content-Type-Options" "nosniff").WriteHeader code)
    (Payload.text (msg ++ "\n")) none
  rw [h3, h4, WriteHeader_of_some _ code s h2, WriteHeader_of_some _ 200 s h2]
  exact ⟨h2, rfl⟩

theorem httpError_after_failure (w : ResponseWriter) (msg : String) (code : Nat)
    (e : String) (he : w.werr = some e) : (httpError w msg code).body = w.body := by
  unfold httpError
  simp only
  rw [Write_after_failure _ _ _ e (by rw [werr_WriteHeader]; exact he), body_WriteHeader]
  rfl

theorem Get_addCORS (w : ResponseWriter) :
    (addCORS w).Get "Access-Control-Allow-Origin" = some "*" ∧
    (addCORS w).Get "Access-Control-Allow-Methods" = some "POST, OPTIONS" ∧
    (addCORS w).Get "Access-Control-Allow-Headers" = some "Content-Type" := by
  unfold addCORS
  refine ⟨?_, ?_, ?_⟩
  · rw [Get_Set_of_ne _ _ _ _ (by decide), Get_Set_of_ne _ _ _ _ (by decide), Get_Set_self]
  · rw [Get_Set_of_ne _ _ _ _ (by decide), Get_Set_self]
  · rw [Get_Set_self]

theorem hasCORS_httpError (w : ResponseWriter) (msg : String) (code : Nat)
    (h : hasCORS w) : hasCORS (httpError w msg code) := by
  obtain ⟨h1, h2, h3⟩ := h
  refine ⟨?_, ?_, ?_⟩
  · rw [Get_httpError_of_ne _ _ _ _ (by decide) (by decide)]; exact h1
  · rw [Get_httpError_of_ne _ _ _ _ (by decide) (by decide)]; exact h2
  · rw [Get_httpError_of_ne _ _ _ _ (by decide) (by decide)]; exact h3

theorem hasCORS_Set_contentType (w : ResponseWriter) (v : String)
    (h : hasCORS w) : hasCORS (w.Set "Content-Type" v) := by
  obtain ⟨h1, h2, h3⟩ := h
  refine ⟨?_, ?_, ?_⟩
  · rw [Get_Set_of_ne _ _ _ _ (by decide)]; exact h1
  · rw [Get_Set_of_ne _ _ _ _ (by decide)]; exact h2
  · rw [Get_Set_of_ne _ _ _ _ (by decide)]; exact h3

theorem hasCORS_Set_nosniff (w : ResponseWriter) (v : String)
    (h : hasCORS w) : hasCORS (w.Set "X-Content-Type-Options" v) := by
  obtain ⟨h1, h2, h3⟩ := h
  refine ⟨?_, ?_, ?_⟩
  · rw [Get_Set_of_ne _ _ _ _ (by decide)]; exact h1
  · rw [Get_Set_of_ne _ _ _ _ (by decide)]; exact h2
  · rw [Get_Set_of_ne _ _ _ _ (by decide)]; exact h3

theorem hasCORS_Write (w : ResponseWriter) (p : Payload) (f : Option String)
    (h : hasCORS w) : hasCORS (w.Write p f).1 := by
  unfold hasCORS at *
  simpa using h

theorem hasCORS_WriteHeader (w : ResponseWriter) (code : Nat) (h : hasCORS w) :
    hasCORS (w.WriteHeader code) := by
  unfold hasCORS at *
  simpa using h

theorem hasCORS_runAndRespond (env : HandlerEnv) (w : ResponseWriter) (pre : List Event)
    (args : List String) (attr : Option SysProcAttr) (h : hasCORS w) :
    hasCORS (runAndRespond env w pre args attr).1 := by
  unfold runAndRespond
  simp only
  split
  · exact hasCORS_httpError _ _ _ (hasCORS_Write _ _ _ (hasCORS_Set_contentType _ _ h))
  · exact hasCORS_Write _ _ _ (hasCORS_Set_contentType _ _ h)

theorem sentCORS_WriteHeader (w : ResponseWriter) (code : Nat) (hs : w.status = none)
    (h : hasCORS w) : sentCORS (w.WriteHeader code) := by
  unfold sentCORS
  rw [(WriteHeader_of_none w code hs).2]
  exact h

theorem sentCORS_httpError (w : ResponseWriter) (msg : String) (code : Nat)
    (hs : w.status = none) (h : hasCORS w) : sentCORS (httpError w msg code) := by
  have h2 : hasCORS ((w.Set "Content-Type" "text/plain; charset=utf-8").Set
      "X-Content-Type-Options" "nosniff") :=
    hasCORS_Set_nosniff _ _ (hasCORS_Set_contentType _ _ h)
  have hs2 : ((w.Set "Content-Type" "text/plain; charset=utf-8").Set
      "X-Content-Type-Options" "nosniff").status = none := hs
  obtain ⟨hc, hsent⟩ := WriteHeader_of_none _ code hs2
  unfold httpError sentCORS
  simp only
  rw [(Write_fields _ _ _).2.2, WriteHeader_of_some _ 200 code hc, hsent]
  exact h2

theorem runAndRespond_committed (env : HandlerEnv) (w : ResponseWriter) (pre : List Event)
    (args : List String) (attr : Option SysProcAttr) (hs : w.status = none) :
    (runAndRespond env w pre args attr).1.status = some 200 ∧
    (runAndRespond env w pre args attr).1.sent =
      setHeader w.header "Content-Type" "application/json" := by
  have hs1 : (w.Set "Content-Type" "application/json").status = none := hs
  obtain ⟨hc, hsent⟩ := WriteHeader_of_none _ 200 hs1
  unfold runAndRespond
  simp only
  split
  · obtain ⟨h1, h2⟩ := httpError_of_committed
      ((w.Set "Content-Type" "application/json").Write
        (Payload.json (buildResponse (env.combinedOutput toolPath args).1
          (env.combinedOutput toolPath args).2).members)
        (env.writeErr (Payload.json (buildResponse (env.combinedOutput toolPath args).1
          (env.combinedOutput toolPath args).2).members))).1
      "Internal server error" 500 200 (by rw [(Write_fields _ _ _).2.1]; exact hc)
    rw [h1, h2, (Write_fields _ _ _).2.2, hsent]
    exact ⟨rfl, rfl⟩
  · rw [(Write_fields _ _ _).2.1, (Write_fields _ _ _).2.2, hc, hsent]
    exact ⟨rfl, rfl⟩

theorem sentCORS_runAndRespond (env : HandlerEnv) (w : ResponseWriter) (pre : List Event)
    (args : List String) (attr : Option SysProcAttr) (hs : w.status = none)
    (h : hasCORS w) : sentCORS (runAndRespond env w pre args attr).1 := by
  unfold sentCORS
  rw [(runAndRespond_committed env w pre args attr hs).2]
  exact hasCORS_Set_contentType w "application/json" h

end MetysAI

namespace MetysAI

/-! ## Lemmas on the encoder -/

theorem decodeRune_ascii (b : Byte) (rest : List Byte) (hb : b.val < 0x80) :
    decodeRune (b :: rest) = some 1 := by
  simp only [decodeRune, hb, if_true]

theorem replaceInvalid_ascii_append (a s : List Byte) (ha : ∀ b ∈ a, b.val < 0x80) :
    replaceInvalid 0 (a ++ s) = a ++ replaceInvalid 0 s := by
  induction a with
  | nil => rfl
  | cons x t ih =>
    have hx : x.val < 0x80 := ha x (List.mem_cons_self x t)
    have ht : ∀ b ∈ t, b.val < 0x80 := fun b hb => ha b (List.mem_cons_of_mem x hb)
    rw [List.cons_append, replaceInvalid, decodeRune_ascii x (t ++ s) hx]
    simp only [Nat.sub_self, List.cons_append]
    rw [ih ht]

theorem replaceInvalid_of_valid (s : List Byte) :
    ∀ skip : Nat, validFrom skip s = true → replaceInvalid skip s = s := by
  induction s with
  | nil => intro skip _; cases skip <;> rfl
  | cons b rest ih =>
    intro skip hv
    cases skip with
    | succ k =>
      rw [validFrom] at hv
      rw [replaceInvalid, ih k hv]
    | zero =>
      rw [validFrom] at hv
      rw [replaceInvalid]
      cases hd : decodeRune (b :: rest) with
      | none => rw [hd] at hv; cases hv
      | some n =>
        rw [hd] at hv
        simp only at hv ⊢
        rw [ih (n - 1) hv]

theorem jsonValue_of_valid (s : List Byte) (h : validUTF8 s = true) : jsonValue s = s :=
  replaceInvalid_of_valid s 0 h

theorem radare2_error_ascii : ∀ b ∈ ascii "radare2 error: ", b.val < 0x80 := by
  have h : ascii "radare2 error: " =
      [0x72, 0x61, 0x64, 0x61, 0x72, 0x65, 0x32, 0x20, 0x65, 0x72, 0x72, 0x6F, 0x72, 0x3A,
        0x20] := rfl
  rw [h]
  intro b hb
  simp only [List.mem_cons, List.mem_singleton, List.not_mem_nil, or_false] at hb
  rcases hb with rfl | rfl | rfl | rfl | rfl | rfl | rfl | rfl | rfl | rfl | rfl | rfl |
    rfl | rfl | rfl <;> decide

theorem jsonValue_error (e : List Byte) :
    jsonValue (ascii "radare2 error: " ++ e) = ascii "radare2 error: " ++ jsonValue e :=
  replaceInvalid_ascii_append (ascii "radare2 error: ") e radare2_error_ascii

theorem radare2_error_ne_nil (e : List Byte) : ascii "radare2 error: " ++ e ≠ [] := by
  intro h
  have hl := congrArg List.length h
  rw [List.length_append] at hl
  have h15 : (ascii "radare2 error: ").length = 15 := rfl
  rw [h15] at hl
  simp at hl

theorem members_ok (c : List Byte) :
    (buildResponse c none).members = [("output", jsonValue c)] := by
  simp [buildResponse, Radare2Response.members]

theorem members_fail (c e : List Byte) :
    (buildResponse c (some e)).members =
      [("output", jsonValue c), ("error", ascii "radare2 error: " ++ jsonValue e)] := by
  unfold buildResponse Radare2Response.members
  simp only [if_neg (radare2_error_ne_nil e), jsonValue_error]

/-! ## Lemmas on the handlers -/

@[simp] theorem status_addCORS (w : ResponseWriter) : (addCORS w).status = w.status := rfl

@[simp] theorem body_addCORS (w : ResponseWriter) : (addCORS w).body = w.body := rfl

theorem invocations_append (xs ys : List Event) :
    invocations (xs ++ ys) = invocations xs ++ invocations ys := by
  induction xs with
  | nil => rfl
  | cons e t ih => cases e <;> simp [invocations, ih]

theorem invocations_runAndRespond (env : HandlerEnv) (w : ResponseWriter) (pre : List Event)
    (args : List String) (attr : Option SysProcAttr) :
    invocations (runAndRespond env w pre args attr).2 =
      invocations pre ++ [(toolPath, args)] := by
  unfold runAndRespond
  simp only
  split <;> cases (env.combinedOutput toolPath args).2 <;>
    simp [invocations_append, invocations]

theorem Launcher.radare2Handler_run (env : HandlerEnv) (w : ResponseWriter) (r : Request)
    (req : Radare2Request) (absPath : String) (hm : r.method ≠ "OPTIONS")
    (hd : env.decode r.body = Except.ok req) (ha : env.abs req.FilePath = Except.ok absPath) :
    Launcher.radare2Handler env w r =
      runAndRespond env (addCORS w)
        [Event.decode, Event.log ("Running radare2 command with args: " ++
          fmtStrings (req.Params ++ [absPath]))]
        (req.Params ++ [absPath])
        (if env.goos = "windows" then
          some { HideWindow := true,
                 CreationFlags := CREATE_NEW_PROCESS_GROUP ||| CREATE_NO_WINDOW }
        else none) := by
  unfold Launcher.radare2Handler
  simp only [hm, if_false, hd, ha]

theorem Server.radare2Handler_tail (env : HandlerEnv) (w : ResponseWriter) (r : Request)
    (req : Radare2Request) (absPath : String) (hm : r.method ≠ "OPTIONS")
    (hd : env.decode r.body = Except.ok req) (ha : env.abs req.FilePath = Except.ok absPath) :
    Server.radare2Handler env w r =
      runAndRespond env (addCORS w)
        [Event.decode, Event.log ("Running radare2 command with args: " ++
          fmtStrings (req.Params ++ [absPath]))]
        (req.Params ++ [absPath]) none := by
  unfold Server.radare2Handler
  simp only [hm, if_false, hd, ha]

theorem runAndRespond_body (env : HandlerEnv) (w : ResponseWriter) (pre : List Event)
    (args : List String) (attr : Option SysProcAttr) (hb : w.body = [])
    (he : w.werr = none)
    (hw : env.writeErr (Payload.json (buildResponse (env.combinedOutput toolPath args).1
      (env.combinedOutput toolPath args).2).members) = none) :
    (runAndRespond env w pre args attr).1.body =
      [Payload.json (buildResponse (env.combinedOutput toolPath args).1
        (env.combinedOutput toolPath args).2).members] := by
  have he1 : ((w.Set "Content-Type" "application/json").WriteHeader 200).werr = none := by
    rw [werr_WriteHeader]; exact he
  have hb1 : ((w.Set "Content-Type" "application/json").WriteHeader 200).body = [] := by
    rw [body_WriteHeader]; exact hb
  unfold runAndRespond
  simp only [hw]
  unfold ResponseWriter.Write
  simp only [he1, hb1, List.nil_append]

theorem response_runAndRespond_committed (env : HandlerEnv) (w : ResponseWriter)
    (pre : List Event) (args : List String) (attr : Option SysProcAttr)
    (hs : w.status = none) :
    (response (runAndRespond env w pre args attr).1).1 = some 200 ∧
    (response (runAndRespond env w pre args attr).1).2.1 = some "application/json" := by
  obtain ⟨h1, h2⟩ := runAndRespond_committed env w pre args attr hs
  unfold response
  simp only [h1, h2, lookup_setHeader_self, and_self]

theorem response_runAndRespond (env : HandlerEnv) (w : ResponseWriter)
    (pre : List Event) (args : List String) (attr : Option SysProcAttr)
    (hs : w.status = none) (hb : w.body = []) (he : w.werr = none)
    (hw : env.writeErr (Payload.json (buildResponse (env.combinedOutput toolPath args).1
      (env.combinedOutput toolPath args).2).members) = none) :
    response (runAndRespond env w pre args attr).1 =
      (some 200, some "application/json",
        [Payload.json (buildResponse (env.combinedOutput toolPath args).1
          (env.combinedOutput toolPath args).2).members]) := by
  obtain ⟨h1, h2⟩ := runAndRespond_committed env w pre args attr hs
  have h3 := runAndRespond_body env w pre args attr hb he hw
  unfold response
  simp only [h1, h2, h3, lookup_setHeader_self]

theorem response_httpError (w : ResponseWriter) (msg : String) (code : Nat)
    (hs : w.status = none) (hb : w.body = []) (he : w.werr = none) :
    response (httpError w msg code) =
      (some code, some "text/plain; charset=utf-8", [Payload.text (msg ++ "\n")]) := by
  have hs2 : ((w.Set "Content-Type" "text/plain; charset=utf-8").Set
      "X-Content-Type-Options" "nosniff").status = none := hs
  obtain ⟨hc, hsent⟩ := WriteHeader_of_none _ code hs2
  have he3 : ((((w.Set "Content-Type" "text/plain; charset=utf-8").Set
      "X-Content-Type-Options" "nosniff").WriteHeader code)).werr = none := by
    rw [werr_WriteHeader]; exact he
  have hb3 : ((((w.Set "Content-Type" "text/plain; charset=utf-8").Set
      "X-Content-Type-Options" "nosniff").WriteHeader code)).body = [] := by
    rw [body_WriteHeader]; exact hb
  have hwr := Write_ok _ (Payload.text (msg ++ "\n")) he3
  have hf := Write_fields
    (((w.Set "Content-Type" "text/plain; charset=utf-8").Set
      "X-Content-Type-Options" "nosniff").WriteHeader code)
    (Payload.text (msg ++ "\n")) none
  unfold response httpError
  simp only
  rw [hf.2.1, hf.2.2, hwr.1, hb3, WriteHeader_of_some _ 200 code hc, hc, hsent]
  have hl : List.lookup "Content-Type"
      ((w.Set "Content-Type" "text/plain; charset=utf-8").Set
        "X-Content-Type-Options" "nosniff").header = some "text/plain; charset=utf-8" := by
    have := Get_Set_of_ne (w.Set "Content-Type" "text/plain; charset=utf-8")
      "X-Content-Type-Options" "nosniff" "Content-Type" (by decide)
    rw [Get_Set_self] at this
    exact this
  rw [hl]
  rfl

end MetysAI

namespace MetysAI

/-! ## The handler claims -/

/-- C1: for a request with a method other than OPTIONS whose body decodes to
`req` and whose `FilePath` resolves to `absPath`, each handler runs the external
tool exactly once, with the argument vector `req.Params ++ [absPath]`: its last
element is `absPath` and what precedes it is `req.Params`, unchanged. -/
theorem radare2Handler_args (env : HandlerEnv) (w : ResponseWriter) (r : Request)
    (req : Radare2Request) (absPath : String) (hm : r.method ≠ "OPTIONS")
    (hd : env.decode r.body = Except.ok req)
    (ha : env.abs req.FilePath = Except.ok absPath) :
    ∃ args : List String,
      invocations (Launcher.radare2Handler env w r).2 = [(toolPath, args)] ∧
      invocations (Server.radare2Handler env w r).2 = [(toolPath, args)] ∧
      args = req.Params ++ [absPath] ∧
      args.getLast? = some absPath ∧ args.dropLast = req.Params := by
  refine ⟨req.Params ++ [absPath], ?_, ?_, rfl, ?_, ?_⟩
  · rw [Launcher.radare2Handler_run env w r req absPath hm hd ha,
      invocations_runAndRespond]
    rfl
  · rw [Server.radare2Handler_tail env w r req absPath hm hd ha,
      invocations_runAndRespond]
    rfl
  · simp
  · simp

/-- C1 at the concrete scenario: `sample.bin` with parameters `-q -c i` and
working directory `/work`. -/
theorem radare2Handler_args_witness :
    sampleRequest.method ≠ "OPTIONS" ∧
    workEnv.decode sampleRequest.body =
      Except.ok { FilePath := "sample.bin", Params := ["-q", "-c", "i"] } ∧
    workEnv.abs "sample.bin" = Except.ok "/work/sample.bin" ∧
    ∃ args : List String,
      invocations (Launcher.radare2Handler workEnv ResponseWriter.fresh sampleRequest).2 =
        [(toolPath, args)] ∧
      invocations (Server.radare2Handler workEnv ResponseWriter.fresh sampleRequest).2 =
        [(toolPath, args)] ∧
      args = ["-q", "-c", "i"] ++ ["/work/sample.bin"] ∧
      args.getLast? = some "/work/sample.bin" ∧ args.dropLast = ["-q", "-c", "i"] :=
  ⟨by decide, rfl, rfl,
    radare2Handler_args workEnv ResponseWriter.fresh sampleRequest
      { FilePath := "sample.bin", Params := ["-q", "-c", "i"] } "/work/sample.bin"
      (by decide) rfl rfl⟩

/-- C2 as stated fails in two ways. First, the tool prints `a`, the byte 0xFF
and `b` and exits with status 0: the `output` member of the JSON body denotes
`a`, U+FFFD, `b`, not the captured bytes. Second, the tool prints 5000 bytes
and exits with status 0, but the client has gone away and the write of the
encoded document fails: status 200 and the JSON content type are committed,
the handler logs the error, and the body holds no JSON document. -/
theorem tool_success_counterexample :
    sampleRequest.method ≠ "OPTIONS" ∧
    rawByteEnv.decode sampleRequest.body =
      Except.ok { FilePath := "sample.bin", Params := ["-q", "-c", "i"] } ∧
    rawByteEnv.abs "sample.bin" = Except.ok "/work/sample.bin" ∧
    rawByteEnv.combinedOutput toolPath ["-q", "-c", "i", "/work/sample.bin"] =
      ([0x61, 0xFF, 0x62], none) ∧
    response (Launcher.radare2Handler rawByteEnv ResponseWriter.fresh sampleRequest).1 =
      (some 200, some "application/json",
        [Payload.json [("output", [0x61, 0xEF, 0xBF, 0xBD, 0x62])]]) ∧
    response (Server.radare2Handler rawByteEnv ResponseWriter.fresh sampleRequest).1 =
      (some 200, some "application/json",
        [Payload.json [("output", [0x61, 0xEF, 0xBF, 0xBD, 0x62])]]) ∧
    ([0x61, 0xEF, 0xBF, 0xBD, 0x62] : List Byte) ≠ [0x61, 0xFF, 0x62] ∧
    brokenPipeEnv.decode sampleRequest.body =
      Except.ok { FilePath := "sample.bin", Params := ["-q", "-c", "i"] } ∧
    brokenPipeEnv.abs "sample.bin" = Except.ok "/work/sample.bin" ∧
    brokenPipeEnv.combinedOutput toolPath ["-q", "-c", "i", "/work/sample.bin"] =
      (List.replicate 5000 0x41, none) ∧
    response (Launcher.radare2Handler brokenPipeEnv ResponseWriter.fresh sampleRequest).1 =
      (some 200, some "application/json", []) ∧
    response (Server.radare2Handler brokenPipeEnv ResponseWriter.fresh sampleRequest).1 =
      (some 200, some "application/json", []) ∧
    (Launcher.radare2Handler brokenPipeEnv ResponseWriter.fresh sampleRequest).2.getLast? =
      some (Event.log ("Error encoding response: " ++
        "write tcp 127.0.0.1:8080->127.0.0.1:50412: write: broken pipe")) :=
  ⟨by decide, rfl, rfl, rfl, rfl, rfl, by decide, rfl, rfl, rfl, rfl, rfl, rfl⟩

/-- C2, amended: for a valid request for which the tool invocation returns no
error with captured output `c`, each handler answers with status 200 and
content type `application/json`; and when the write of the encoded document
succeeds, the body is the JSON object whose only member is `output` (no
`error` member), denoting `c` with U+FFFD in the place of every byte that is
not part of a valid UTF-8 sequence, which is `c` itself when `c` is valid
UTF-8. -/
theorem tool_success_response (env : HandlerEnv) (r : Request) (req : Radare2Request)
    (absPath : String) (c : List Byte) (hm : r.method ≠ "OPTIONS")
    (hd : env.decode r.body = Except.ok req)
    (ha : env.abs req.FilePath = Except.ok absPath)
    (hrun : env.combinedOutput toolPath (req.Params ++ [absPath]) = (c, none)) :
    ((response (Launcher.radare2Handler env ResponseWriter.fresh r).1).1 = some 200 ∧
      (response (Launcher.radare2Handler env ResponseWriter.fresh r).1).2.1 =
        some "application/json" ∧
      (response (Server.radare2Handler env ResponseWriter.fresh r).1).1 = some 200 ∧
      (response (Server.radare2Handler env ResponseWriter.fresh r).1).2.1 =
        some "application/json") ∧
    (env.writeErr (Payload.json [("output", jsonValue c)]) = none →
      response (Launcher.radare2Handler env ResponseWriter.fresh r).1 =
        (some 200, some "application/json", [Payload.json [("output", jsonValue c)]]) ∧
      response (Server.radare2Handler env ResponseWriter.fresh r).1 =
        (some 200, some "application/json", [Payload.json [("output", jsonValue c)]])) ∧
    (validUTF8 c = true → jsonValue c = c) := by
  have hL := Launcher.radare2Handler_run env ResponseWriter.fresh r req absPath hm hd ha
  have hS := Server.radare2Handler_tail env ResponseWriter.fresh r req absPath hm hd ha
  refine ⟨?_, ?_, jsonValue_of_valid c⟩
  · rw [hL, hS]
    obtain ⟨h1, h2⟩ := response_runAndRespond_committed env (addCORS ResponseWriter.fresh)
      [Event.decode, Event.log ("Running radare2 command with args: " ++
        fmtStrings (req.Params ++ [absPath]))] (req.Params ++ [absPath])
      (if env.goos = "windows" then
        some { HideWindow := true,
               CreationFlags := CREATE_NEW_PROCESS_GROUP ||| CREATE_NO_WINDOW }
      else none) rfl
    obtain ⟨h3, h4⟩ := response_runAndRespond_committed env (addCORS ResponseWriter.fresh)
      [Event.decode, Event.log ("Running radare2 command with args: " ++
        fmtStrings (req.Params ++ [absPath]))] (req.Params ++ [absPath]) none rfl
    exact ⟨h1, h2, h3, h4⟩
  · intro hw
    have hw2 : env.writeErr (Payload.json (buildResponse
        (env.combinedOutput toolPath (req.Params ++ [absPath])).1
        (env.combinedOutput toolPath (req.Params ++ [absPath])).2).members) = none := by
      rw [hrun, members_ok]
      exact hw
    rw [hL, hS, response_runAndRespond env _ _ _ _ rfl rfl rfl hw2,
      response_runAndRespond env _ _ _ _ rfl rfl rfl hw2, hrun, members_ok]
    exact ⟨rfl, rfl⟩

/-- C2, amended, at the concrete scenario: the captured `arch x86` line comes
back unchanged as the only member of the JSON body. -/
theorem tool_success_response_witness :
    sampleRequest.method ≠ "OPTIONS" ∧
    workEnv.decode sampleRequest.body =
      Except.ok { FilePath := "sample.bin", Params := ["-q", "-c", "i"] } ∧
    workEnv.abs "sample.bin" = Except.ok "/work/sample.bin" ∧
    workEnv.combinedOutput toolPath (["-q", "-c", "i"] ++ ["/work/sample.bin"]) =
      (ascii "arch x86\n", none) ∧
    workEnv.writeErr (Payload.json [("output", jsonValue (ascii "arch x86\n"))]) = none ∧
    validUTF8 (ascii "arch x86\n") = true ∧
    response (Launcher.radare2Handler workEnv ResponseWriter.fresh sampleRequest).1 =
      (some 200, some "application/json",
        [Payload.json [("output", jsonValue (ascii "arch x86\n"))]]) ∧
    response (Server.radare2Handler workEnv ResponseWriter.fresh sampleRequest).1 =
      (some 200, some "application/json",
        [Payload.json [("output", jsonValue (ascii "arch x86\n"))]]) ∧
    jsonValue (ascii "arch x86\n") = ascii "arch x86\n" :=
  ⟨by decide, rfl, rfl, rfl, rfl, rfl,
    ((tool_success_response workEnv sampleRequest
      { FilePath := "sample.bin", Params := ["-q", "-c", "i"] } "/work/sample.bin"
      (ascii "arch x86\n") (by decide) rfl rfl rfl).2.1 rfl).1,
    ((tool_success_response workEnv sampleRequest
      { FilePath := "sample.bin", Params := ["-q", "-c", "i"] } "/work/sample.bin"
      (ascii "arch x86\n") (by decide) rfl rfl rfl).2.1 rfl).2,
    (tool_success_response workEnv sampleRequest
      { FilePath := "sample.bin", Params := ["-q", "-c", "i"] } "/work/sample.bin"
      (ascii "arch x86\n") (by decide) rfl rfl rfl).2.2 rfl⟩

/-- C3 as stated fails in two ways. First, the tool prints `a`, the byte 0xFF
and `b` and exits with status 1: the `output` member of the JSON body denotes
`a`, U+FFFD, `b`, not the captured bytes. Second, the tool prints 5000 bytes
and exits with status 1, but the client has gone away and the write of the
encoded document fails: status 200 and the JSON content type are committed,
the handler logs the error, and the body holds no JSON document. -/
theorem tool_failure_counterexample :
    sampleRequest.method ≠ "OPTIONS" ∧
    failingRawByteEnv.decode sampleRequest.body =
      Except.ok { FilePath := "sample.bin", Params := ["-q", "-c", "i"] } ∧
    failingRawByteEnv.abs "sample.bin" = Except.ok "/work/sample.bin" ∧
    failingRawByteEnv.combinedOutput toolPath ["-q", "-c", "i", "/work/sample.bin"] =
      ([0x61, 0xFF, 0x62], some (ascii "exit status 1")) ∧
    response (Launcher.radare2Handler failingRawByteEnv ResponseWriter.fresh sampleRequest).1 =
      (some 200, some "application/json",
        [Payload.json [("output", [0x61, 0xEF, 0xBF, 0xBD, 0x62]),
          ("error", ascii "radare2 error: exit status 1")]]) ∧
    response (Server.radare2Handler failingRawByteEnv ResponseWriter.fresh sampleRequest).1 =
      (some 200, some "application/json",
        [Payload.json [("output", [0x61, 0xEF, 0xBF, 0xBD, 0x62]),
          ("error", ascii "radare2 error: exit status 1")]]) ∧
    ([0x61, 0xEF, 0xBF, 0xBD, 0x62] : List Byte) ≠ [0x61, 0xFF, 0x62] ∧
    failingBrokenPipeEnv.decode sampleRequest.body =
      Except.ok { FilePath := "sample.bin", Params := ["-q", "-c", "i"] } ∧
    failingBrokenPipeEnv.abs "sample.bin" = Except.ok "/work/sample.bin" ∧
    failingBrokenPipeEnv.combinedOutput toolPath ["-q", "-c", "i", "/work/sample.bin"] =
      (List.replicate 5000 0x41, some (ascii "exit status 1")) ∧
    response
        (Launcher.radare2Handler failingBrokenPipeEnv ResponseWriter.fresh sampleRequest).1 =
      (some 200, some "application/json", []) ∧
    response
        (Server.radare2Handler failingBrokenPipeEnv ResponseWriter.fresh sampleRequest).1 =
      (some 200, some "application/json", []) ∧
    (Launcher.radare2Handler failingBrokenPipeEnv ResponseWriter.fresh
        sampleRequest).2.getLast? =
      some (Event.log ("Error encoding response: " ++
        "write tcp 127.0.0.1:8080->127.0.0.1:50412: write: broken pipe")) :=
  ⟨by decide, rfl, rfl, rfl, rfl, rfl, by decide, rfl, rfl, rfl, rfl, rfl, rfl⟩

/-- C3, amended: for a valid request for which the tool invocation fails with
an error of text `e` and captured output `c`, each handler still answers with
status 200 and content type `application/json`; and when the write of the
encoded document succeeds, the body is the JSON object whose `output` member
denotes `c` and whose `error` member denotes `radare2 error: ` followed by
`e`, each with U+FFFD in the place of every byte that is not part of a valid
UTF-8 sequence, hence `c` and `e` themselves when they are valid UTF-8. The
`Error` field is not empty, so the `error` member is never omitted. -/
theorem tool_failure_response (env : HandlerEnv) (r : Request) (req : Radare2Request)
    (absPath : String) (c e : List Byte) (hm : r.method ≠ "OPTIONS")
    (hd : env.decode r.body = Except.ok req)
    (ha : env.abs req.FilePath = Except.ok absPath)
    (hrun : env.combinedOutput toolPath (req.Params ++ [absPath]) = (c, some e)) :
    ((response (Launcher.radare2Handler env ResponseWriter.fresh r).1).1 = some 200 ∧
      (response (Launcher.radare2Handler env ResponseWriter.fresh r).1).2.1 =
        some "application/json" ∧
      (response (Server.radare2Handler env ResponseWriter.fresh r).1).1 = some 200 ∧
      (response (Server.radare2Handler env ResponseWriter.fresh r).1).2.1 =
        some "application/json") ∧
    (env.writeErr (Payload.json [("output", jsonValue c),
        ("error", ascii "radare2 error: " ++ jsonValue e)]) = none →
      response (Launcher.radare2Handler env ResponseWriter.fresh r).1 =
        (some 200, some "application/json",
          [Payload.json [("output", jsonValue c),
            ("error", ascii "radare2 error: " ++ jsonValue e)]]) ∧
      response (Server.radare2Handler env ResponseWriter.fresh r).1 =
        (some 200, some "application/json",
          [Payload.json [("output", jsonValue c),
            ("error", ascii "radare2 error: " ++ jsonValue e)]])) ∧
    (buildResponse c (some e)).Error = ascii "radare2 error: " ++ e ∧
    ascii "radare2 error: " ++ e ≠ [] ∧
    ascii "radare2 error: " ++ jsonValue e ≠ [] ∧
    (validUTF8 c = true → jsonValue c = c) ∧
    (validUTF8 e = true → jsonValue e = e) := by
  have hL := Launcher.radare2Handler_run env ResponseWriter.fresh r req absPath hm hd ha
  have hS := Server.radare2Handler_tail env ResponseWriter.fresh r req absPath hm hd ha
  refine ⟨?_, ?_, rfl, radare2_error_ne_nil e, radare2_error_ne_nil (jsonValue e),
    jsonValue_of_valid c, jsonValue_of_valid e⟩
  · rw [hL, hS]
    obtain ⟨h1, h2⟩ := response_runAndRespond_committed env (addCORS ResponseWriter.fresh)
      [Event.decode, Event.log ("Running radare2 command with args: " ++
        fmtStrings (req.Params ++ [absPath]))] (req.Params ++ [absPath])
      (if env.goos = "windows" then
        some { HideWindow := true,
               CreationFlags := CREATE_NEW_PROCESS_GROUP ||| CREATE_NO_WINDOW }
      else none) rfl
    obtain ⟨h3, h4⟩ := response_runAndRespond_committed env (addCORS ResponseWriter.fresh)
      [Event.decode, Event.log ("Running radare2 command with args: " ++
        fmtStrings (req.Params ++ [absPath]))] (req.Params ++ [absPath]) none rfl
    exact ⟨h1, h2, h3, h4⟩
  · intro hw
    have hw2 : env.writeErr (Payload.json (buildResponse
        (env.combinedOutput toolPath (req.Params ++ [absPath])).1
        (env.combinedOutput toolPath (req.Params ++ [absPath])).2).members) = none := by
      rw [hrun, members_fail]
      exact hw
    rw [hL, hS, response_runAndRespond env _ _ _ _ rfl rfl rfl hw2,
      response_runAndRespond env _ _ _ _ rfl rfl rfl hw2, hrun, members_fail]
    exact ⟨rfl, rfl⟩

/-- C3, amended, at a concrete failure: exit status 1 after one line of output. -/
theorem tool_failure_response_witness :
    sampleRequest.method ≠ "OPTIONS" ∧
    failingToolEnv.decode sampleRequest.body =
      Except.ok { FilePath := "sample.bin", Params := ["-q", "-c", "i"] } ∧
    failingToolEnv.abs "sample.bin" = Except.ok "/work/sample.bin" ∧
    failingToolEnv.combinedOutput toolPath (["-q", "-c", "i"] ++ ["/work/sample.bin"]) =
      (ascii "Cannot open file\n", some (ascii "exit status 1")) ∧
    failingToolEnv.writeErr (Payload.json [("output", jsonValue (ascii "Cannot open file\n")),
        ("error", ascii "radare2 error: " ++ jsonValue (ascii "exit status 1"))]) = none ∧
    response (Launcher.radare2Handler failingToolEnv ResponseWriter.fresh sampleRequest).1 =
      (some 200, some "application/json",
        [Payload.json [("output", jsonValue (ascii "Cannot open file\n")),
          ("error", ascii "radare2 error: " ++ jsonValue (ascii "exit status 1"))]]) ∧
    response (Server.radare2Handler failingToolEnv ResponseWriter.fresh sampleRequest).1 =
      (some 200, some "application/json",
        [Payload.json [("output", jsonValue (ascii "Cannot open file\n")),
          ("error", ascii "radare2 error: " ++ jsonValue (ascii "exit status 1"))]]) ∧
    jsonValue (ascii "Cannot open file\n") = ascii "Cannot open file\n" ∧
    jsonValue (ascii "exit status 1") = ascii "exit status 1" :=
  ⟨by decide, rfl, rfl, rfl, rfl,
    ((tool_failure_response failingToolEnv sampleRequest
      { FilePath := "sample.bin", Params := ["-q", "-c", "i"] } "/work/sample.bin"
      (ascii "Cannot open file\n") (ascii "exit status 1") (by decide) rfl rfl rfl).2.1
        rfl).1,
    ((tool_failure_response failingToolEnv sampleRequest
      { FilePath := "sample.bin", Params := ["-q", "-c", "i"] } "/work/sample.bin"
      (ascii "Cannot open file\n") (ascii "exit status 1") (by decide) rfl rfl rfl).2.1
        rfl).2,
    (tool_failure_response failingToolEnv sampleRequest
      { FilePath := "sample.bin", Params := ["-q", "-c", "i"] } "/work/sample.bin"
      (ascii "Cannot open file\n") (ascii "exit status 1") (by decide) rfl rfl
        rfl).2.2.2.2.2.1 rfl,
    (tool_failure_response failingToolEnv sampleRequest
      { FilePath := "sample.bin", Params := ["-q", "-c", "i"] } "/work/sample.bin"
      (ascii "Cannot open file\n") (ascii "exit status 1") (by decide) rfl rfl
        rfl).2.2.2.2.2.2 rfl⟩

/-- C4 as stated fails: the decoder takes the first JSON value of the body and
fills the members it finds. The body `{}`, which has neither member, decodes to
the zero request, and a body with a valid object followed by garbage decodes
to that object; in both cases each handler answers 200 and runs the tool. -/
theorem decode_failure_counterexample :
    lenientEnv.decode "\x7b\x7d" = Except.ok { FilePath := "", Params := [] } ∧
    lenientEnv.abs "" = Except.ok "/work" ∧
    (response (Launcher.radare2Handler lenientEnv ResponseWriter.fresh
        (Request.mk "POST" "\x7b\x7d")).1).1 = some 200 ∧
    invocations (Launcher.radare2Handler lenientEnv ResponseWriter.fresh
        (Request.mk "POST" "\x7b\x7d")).2 = [(toolPath, ["/work"])] ∧
    (response (Server.radare2Handler lenientEnv ResponseWriter.fresh
        (Request.mk "POST" "\x7b\x7d")).1).1 = some 200 ∧
    invocations (Server.radare2Handler lenientEnv ResponseWriter.fresh
        (Request.mk "POST" "\x7b\x7d")).2 = [(toolPath, ["/work"])] ∧
    lenientEnv.decode "\x7b\"filepath\": \"sample.bin\"\x7d trailing garbage" =
      Except.ok { FilePath := "sample.bin", Params := [] } ∧
    (response (Launcher.radare2Handler lenientEnv ResponseWriter.fresh
        (Request.mk "POST"
          "\x7b\"filepath\": \"sample.bin\"\x7d trailing garbage")).1).1 = some 200 ∧
    invocations (Launcher.radare2Handler lenientEnv ResponseWriter.fresh
        (Request.mk "POST"
          "\x7b\"filepath\": \"sample.bin\"\x7d trailing garbage")).2 =
      [(toolPath, ["/work/sample.bin"])] ∧
    (response (Server.radare2Handler lenientEnv ResponseWriter.fresh
        (Request.mk "POST"
          "\x7b\"filepath\": \"sample.bin\"\x7d trailing garbage")).1).1 = some 200 ∧
    invocations (Server.radare2Handler lenientEnv ResponseWriter.fresh
        (Request.mk "POST"
          "\x7b\"filepath\": \"sample.bin\"\x7d trailing garbage")).2 =
      [(toolPath, ["/work/sample.bin"])] :=
  ⟨rfl, rfl, rfl, rfl, rfl, rfl, rfl, rfl, rfl, rfl, rfl⟩

/-- C4, amended: for a request with a method other than OPTIONS on whose body
the JSON decoder returns an error, each handler answers 400 with the
plain-text line `Invalid request` and runs the external tool zero times. -/
theorem decode_failure_response (env : HandlerEnv) (r : Request) (e : String)
    (hm : r.method ≠ "OPTIONS") (hd : env.decode r.body = Except.error e) :
    response (Launcher.radare2Handler env ResponseWriter.fresh r).1 =
      (some 400, some "text/plain; charset=utf-8", [Payload.text "Invalid request\n"]) ∧
    invocations (Launcher.radare2Handler env ResponseWriter.fresh r).2 = [] ∧
    response (Server.radare2Handler env ResponseWriter.fresh r).1 =
      (some 400, some "text/plain; charset=utf-8", [Payload.text "Invalid request\n"]) ∧
    invocations (Server.radare2Handler env ResponseWriter.fresh r).2 = [] := by
  have hL : Launcher.radare2Handler env ResponseWriter.fresh r =
      (httpError (addCORS ResponseWriter.fresh) "Invalid request" 400, [Event.decode]) := by
    unfold Launcher.radare2Handler
    simp only [hm, if_false, hd]
  have hS : Server.radare2Handler env ResponseWriter.fresh r =
      (httpError (addCORS ResponseWriter.fresh) "Invalid request" 400, [Event.decode]) := by
    unfold Server.radare2Handler
    simp only [hm, if_false, hd]
  rw [hL, hS]
  exact ⟨response_httpError _ _ _ rfl rfl rfl, rfl, response_httpError _ _ _ rfl rfl rfl, rfl⟩

/-- C4, amended, at a body that is not JSON. -/
theorem decode_failure_response_witness :
    (Request.mk "POST" "not json").method ≠ "OPTIONS" ∧
    workEnv.decode (Request.mk "POST" "not json").body = Except.error "invalid character" ∧
    response (Launcher.radare2Handler workEnv ResponseWriter.fresh
        (Request.mk "POST" "not json")).1 =
      (some 400, some "text/plain; charset=utf-8", [Payload.text "Invalid request\n"]) ∧
    invocations (Launcher.radare2Handler workEnv ResponseWriter.fresh
        (Request.mk "POST" "not json")).2 = [] ∧
    response (Server.radare2Handler workEnv ResponseWriter.fresh
        (Request.mk "POST" "not json")).1 =
      (some 400, some "text/plain; charset=utf-8", [Payload.text "Invalid request\n"]) ∧
    invocations (Server.radare2Handler workEnv ResponseWriter.fresh
        (Request.mk "POST" "not json")).2 = [] :=
  ⟨by decide, rfl,
    decode_failure_response workEnv (Request.mk "POST" "not json") "invalid character"
      (by decide) rfl⟩

/-- C5: for a request with a method other than OPTIONS whose body decodes to
`req` but whose `FilePath` fails absolute-path resolution with error `e`, each
handler answers 400 with the plain-text line `Invalid file path: ` followed by
`e`, and runs the external tool zero times. -/
theorem abs_failure_response (env : HandlerEnv) (r : Request) (req : Radare2Request)
    (e : String) (hm : r.method ≠ "OPTIONS") (hd : env.decode r.body = Except.ok req)
    (ha : env.abs req.FilePath = Except.error e) :
    response (Launcher.radare2Handler env ResponseWriter.fresh r).1 =
      (some 400, some "text/plain; charset=utf-8",
        [Payload.text ("Invalid file path: " ++ e ++ "\n")]) ∧
    invocations (Launcher.radare2Handler env ResponseWriter.fresh r).2 = [] ∧
    response (Server.radare2Handler env ResponseWriter.fresh r).1 =
      (some 400, some "text/plain; charset=utf-8",
        [Payload.text ("Invalid file path: " ++ e ++ "\n")]) ∧
    invocations (Server.radare2Handler env ResponseWriter.fresh r).2 = [] := by
  have hL : Launcher.radare2Handler env ResponseWriter.fresh r =
      (httpError (addCORS ResponseWriter.fresh) ("Invalid file path: " ++ e) 400,
        [Event.decode, Event.log ("Error getting absolute path: " ++ e)]) := by
    unfold Launcher.radare2Handler
    simp only [hm, if_false, hd, ha]
  have hS : Server.radare2Handler env ResponseWriter.fresh r =
      (httpError (addCORS ResponseWriter.fresh) ("Invalid file path: " ++ e) 400,
        [Event.decode, Event.log ("Error getting absolute path: " ++ e)]) := by
    unfold Server.radare2Handler
    simp only [hm, if_false, hd, ha]
  rw [hL, hS]
  exact ⟨response_httpError _ _ _ rfl rfl rfl, rfl, response_httpError _ _ _ rfl rfl rfl, rfl⟩

/-- C5 at a concrete path that does not resolve. -/
theorem abs_failure_response_witness :
    nulRequest.method ≠ "OPTIONS" ∧
    workEnv.decode nulRequest.body = Except.ok { FilePath := "a\x00b", Params := [] } ∧
    workEnv.abs "a\x00b" = Except.error "invalid argument" ∧
    response (Launcher.radare2Handler workEnv ResponseWriter.fresh nulRequest).1 =
      (some 400, some "text/plain; charset=utf-8",
        [Payload.text ("Invalid file path: " ++ "invalid argument" ++ "\n")]) ∧
    invocations (Launcher.radare2Handler workEnv ResponseWriter.fresh nulRequest).2 = [] ∧
    response (Server.radare2Handler workEnv ResponseWriter.fresh nulRequest).1 =
      (some 400, some "text/plain; charset=utf-8",
        [Payload.text ("Invalid file path: " ++ "invalid argument" ++ "\n")]) ∧
    invocations (Server.radare2Handler workEnv ResponseWriter.fresh nulRequest).2 = [] :=
  ⟨by decide, rfl, rfl,
    abs_failure_response workEnv nulRequest { FilePath := "a\x00b", Params := [] }
      "invalid argument" (by decide) rfl rfl⟩

/-- C6: whatever the environment, the writer handed in and the request (any
method, any body, hence on every path through the handler), the headers of
the response of each handler contain `Access-Control-Allow-Origin: *`,
`Access-Control-Allow-Methods: POST, OPTIONS` and
`Access-Control-Allow-Headers: Content-Type`. On a writer nothing has been
written to, they are also among the headers committed with the status. -/
theorem radare2Handler_cors (env : HandlerEnv) (w : ResponseWriter) (r : Request) :
    hasCORS (Launcher.radare2Handler env w r).1 ∧
    hasCORS (Server.radare2Handler env w r).1 ∧
    sentCORS (Launcher.radare2Handler env ResponseWriter.fresh r).1 ∧
    sentCORS (Server.radare2Handler env ResponseWriter.fresh r).1 := by
  have h0 : hasCORS (addCORS w) := Get_addCORS w
  have hf : hasCORS (addCORS ResponseWriter.fresh) := Get_addCORS ResponseWriter.fresh
  refine ⟨?_, ?_, ?_, ?_⟩
  · unfold Launcher.radare2Handler
    simp only
    split
    · exact hasCORS_WriteHeader _ _ h0
    · split
      · exact hasCORS_httpError _ _ _ h0
      · split
        · exact hasCORS_httpError _ _ _ h0
        · exact hasCORS_runAndRespond _ _ _ _ _ h0
  · unfold Server.radare2Handler
    simp only
    split
    · exact hasCORS_WriteHeader _ _ h0
    · split
      · exact hasCORS_httpError _ _ _ h0
      · split
        · exact hasCORS_httpError _ _ _ h0
        · exact hasCORS_runAndRespond _ _ _ _ _ h0
  · unfold Launcher.radare2Handler
    simp only
    split
    · exact sentCORS_WriteHeader _ _ rfl hf
    · split
      · exact sentCORS_httpError _ _ _ rfl hf
      · split
        · exact sentCORS_httpError _ _ _ rfl hf
        · exact sentCORS_runAndRespond _ _ _ _ _ rfl hf
  · unfold Server.radare2Handler
    simp only
    split
    · exact sentCORS_WriteHeader _ _ rfl hf
    · split
      · exact sentCORS_httpError _ _ _ rfl hf
      · split
        · exact sentCORS_httpError _ _ _ rfl hf
        · exact sentCORS_runAndRespond _ _ _ _ _ rfl hf

/-- C7: for the method OPTIONS, whatever the environment and the body, each
handler answers with status 200 and an empty body and leaves an empty trace:
the body is not handed to the decoder and the external tool is not run. -/
theorem options_response (env : HandlerEnv) (body : String) :
    (Launcher.radare2Handler env ResponseWriter.fresh (Request.mk "OPTIONS" body)).1.status =
      some 200 ∧
    (Launcher.radare2Handler env ResponseWriter.fresh (Request.mk "OPTIONS" body)).1.body =
      [] ∧
    (Launcher.radare2Handler env ResponseWriter.fresh (Request.mk "OPTIONS" body)).2 = [] ∧
    (Server.radare2Handler env ResponseWriter.fresh (Request.mk "OPTIONS" body)).1.status =
      some 200 ∧
    (Server.radare2Handler env ResponseWriter.fresh (Request.mk "OPTIONS" body)).1.body =
      [] ∧
    (Server.radare2Handler env ResponseWriter.fresh (Request.mk "OPTIONS" body)).2 = [] ∧
    invocations
      (Launcher.radare2Handler env ResponseWriter.fresh (Request.mk "OPTIONS" body)).2 = [] ∧
    invocations
      (Server.radare2Handler env ResponseWriter.fresh (Request.mk "OPTIONS" body)).2 = [] :=
  ⟨rfl, rfl, rfl, rfl, rfl, rfl, rfl, rfl⟩

end MetysAI

namespace MetysAI

/-! ## Lemmas on the launcher -/

theorem intercalate_go_starts (sep : String) (xs : List String) :
    ∀ acc : String, acc.data <+: (String.intercalate.go acc sep xs).data := by
  induction xs with
  | nil => intro acc; exact List.prefix_refl _
  | cons a t ih =>
    intro acc
    unfold String.intercalate.go
    refine List.IsPrefix.trans ?_ (ih (acc ++ sep ++ a))
    rw [String.data_append, String.data_append, List.append_assoc]
    exact List.prefix_append _ _

theorem intercalate_go_infix (sep : String) (xs : List String) (p : String) :
    ∀ acc : String, p ∈ xs → p.data <:+: (String.intercalate.go acc sep xs).data := by
  induction xs with
  | nil => intro acc h; cases h
  | cons a t ih =>
    intro acc h
    unfold String.intercalate.go
    rcases List.mem_cons.mp h with rfl | ht
    · have hsuf : p.data <:+ (acc ++ sep ++ p).data := by
        rw [String.data_append]
        exact List.suffix_append _ _
      exact List.IsInfix.trans hsuf.isInfix (intercalate_go_starts sep t _).isInfix
    · exact ih _ ht

theorem intercalate_infix (sep : String) (xs : List String) (p : String) (h : p ∈ xs) :
    p.data <:+: (sep.intercalate xs).data := by
  cases xs with
  | nil => cases h
  | cons a t =>
    unfold String.intercalate
    rcases List.mem_cons.mp h with rfl | ht
    · exact (intercalate_go_starts sep t p).isInfix
    · exact intercalate_go_infix sep t p a ht

theorem fmtStrings_infix (xs : List String) (p : String) (h : p ∈ xs) (pre : String) :
    p.data <:+: (pre ++ fmtStrings xs).data := by
  unfold fmtStrings
  rw [String.data_append, String.data_append, String.data_append]
  obtain ⟨a, b, hab⟩ := intercalate_infix " " xs p h
  refine ⟨pre.data ++ "[".data ++ a, b ++ "]".data, ?_⟩
  rw [← hab]
  simp [List.append_assoc]

namespace Launcher

theorem frontendExe_of_none (stat : String → Except String Bool) (cands : List String)
    (h : ∀ p ∈ cands, isRegular stat p = false) : frontendExe stat cands = "" := by
  induction cands with
  | nil => rfl
  | cons a t ih =>
    unfold frontendExe
    rw [h a (List.mem_cons_self a t)]
    exact ih (fun p hp => h p (List.mem_cons_of_mem a hp))

theorem frontendExe_of_first (stat : String → Except String Bool) (cands : List String) :
    ∀ (i : Nat) (p : String), cands[i]? = some p → isRegular stat p = true →
      (∀ (j : Nat) (q : String), j < i → cands[j]? = some q → isRegular stat q = false) →
      frontendExe stat cands = p := by
  induction cands with
  | nil => intro i p h; simp at h
  | cons a t ih =>
    intro i p hi hp hbefore
    cases i with
    | zero =>
      simp at hi
      subst hi
      unfold frontendExe
      rw [hp]
      rfl
    | succ k =>
      have ha : isRegular stat a = false := hbefore 0 a (Nat.succ_pos k) (by simp)
      unfold frontendExe
      rw [ha]
      simp at hi
      exact ih k p hi hp (fun j q hj hq => hbefore (j + 1) q (Nat.succ_lt_succ hj) (by simpa using hq))

theorem frontendExe_selected (stat : String → Except String Bool) (cands : List String)
    (h : frontendExe stat cands ≠ "") :
    ∃ i : Nat, cands[i]? = some (frontendExe stat cands) ∧
      isRegular stat (frontendExe stat cands) = true ∧
      ∀ (j : Nat) (q : String), j < i → cands[j]? = some q → isRegular stat q = false := by
  induction cands with
  | nil => exact absurd rfl h
  | cons a t ih =>
    unfold frontendExe at h ⊢
    by_cases ha : isRegular stat a = true
    · rw [if_pos ha]
      refine ⟨0, by simp, ha, ?_⟩
      intro j q hj
      exact absurd hj (Nat.not_lt_zero j)
    · have ha2 : isRegular stat a = false := by simpa using ha
      rw [if_neg ha] at h ⊢
      obtain ⟨i, hi, hreg, hbefore⟩ := ih h
      refine ⟨i + 1, by simpa using hi, hreg, ?_⟩
      intro j q hj hq
      cases j with
      | zero =>
        simp at hq
        subst hq
        exact ha2
      | succ k =>
        exact hbefore k q (Nat.lt_of_succ_lt_succ hj) (by simpa using hq)

theorem setupLog_logs (env : LaunchEnv) : ∀ ev ∈ setupLog env, ∃ m, ev = Event.log m := by
  intro ev hev
  unfold setupLog at hev
  cases hx : env.executable <;> cases hw : env.getwd <;> simp [hx, hw] at hev
  · rcases hev with h | h <;> exact ⟨_, h⟩
  · exact ⟨_, hev⟩
  · exact ⟨_, hev⟩

end Launcher

theorem listens_append (xs ys : List Event) :
    listens (xs ++ ys) = listens xs ++ listens ys := by
  induction xs with
  | nil => rfl
  | cons e t ih => cases e <;> simp [listens, ih]

theorem listens_logs (l : List Event) (h : ∀ ev ∈ l, ∃ m, ev = Event.log m) :
    listens l = [] := by
  induction l with
  | nil => rfl
  | cons e t ih =>
    obtain ⟨m, hm⟩ := h e (List.mem_cons_self e t)
    subst hm
    exact ih (fun ev hev => h ev (List.mem_cons_of_mem _ hev))

theorem not_mem_logs (l : List Event) (x : Event) (h : ∀ ev ∈ l, ∃ m, ev = Event.log m)
    (hx : ∀ m, x ≠ Event.log m) : x ∉ l := by
  intro hmem
  obtain ⟨m, hm⟩ := h x hmem
  exact hx m hm

namespace Launcher

theorem main_found (env : LaunchEnv) (h : frontendExe env.stat (candidates env) ≠ "") :
    main env =
      (setupLog env ++
        [Event.log ("Launching frontend: " ++ frontendExe env.stat (candidates env)),
          Event.start (frontendExe env.stat (candidates env))
            (env.dir (frontendExe env.stat (candidates env))),
          (match env.start (frontendExe env.stat (candidates env))
              (env.dir (frontendExe env.stat (candidates env))) with
            | Except.error startErr => Event.log ("Error launching frontend: " ++ startErr)
            | Except.ok pid =>
              Event.log ("Frontend process started with PID: " ++ toString pid)),
          Event.listen "tcp" ":8080",
          (match env.listen "tcp" ":8080" with
            | Except.error _ =>
              Event.log "Port 8080 already in use, assuming server is running"
            | Except.ok _ => Event.serve "/radare2"),
          Event.wait] ++
        (match env.start (frontendExe env.stat (candidates env))
            (env.dir (frontendExe env.stat (candidates env))) with
          | Except.error _ => [Event.log "Frontend exited with error: exec: not started"]
          | Except.ok pid =>
            Event.exited pid ::
              (match env.wait with
                | some waitErr => [Event.log ("Frontend exited with error: " ++ waitErr)]
                | none => [])), 0) := by
  unfold main
  simp only [h, if_false]

theorem main_not_found (env : LaunchEnv) (h : frontendExe env.stat (candidates env) = "") :
    main env = (setupLog env ++
      [Event.fatal ("Could not find frontend executable; tried: " ++
        fmtStrings (candidates env))], 1) := by
  unfold main
  simp only [h, if_true]

theorem found_of_listen (env : LaunchEnv) (network address : String)
    (h : Event.listen network address ∈ (main env).1) :
    frontendExe env.stat (candidates env) ≠ "" := by
  intro hexe
  rw [main_not_found env hexe] at h
  rcases List.mem_append.mp h with h1 | h1
  · exact not_mem_logs _ _ (setupLog_logs env) (fun _ hc => by cases hc) h1
  · simp at h1

theorem waitLog_logs (env : LaunchEnv) :
    ∀ ev ∈ (match env.wait with
        | some waitErr => [Event.log ("Frontend exited with error: " ++ waitErr)]
        | none => []), ∃ m, ev = Event.log m := by
  intro ev hev
  cases hw : env.wait with
  | none => simp [hw] at hev
  | some e =>
    simp [hw] at hev
    exact ⟨_, hev⟩

theorem listen_before (A B : List Event) (x y : Event) (hA : y ∉ A) (hxy : x ≠ y) :
    ∀ pre post : List Event, A ++ x :: B = pre ++ y :: post → x ∈ pre := by
  induction A with
  | nil =>
    intro pre post heq
    cases pre with
    | nil =>
      simp at heq
      exact absurd heq.1 hxy
    | cons p t =>
      simp at heq
      rw [← heq.1]
      exact List.mem_cons_self x t
  | cons a t ih =>
    intro pre post heq
    cases pre with
    | nil =>
      simp at heq
      exact absurd heq.1.symm (fun e => hA (e ▸ List.mem_cons_self a t))
    | cons p u =>
      simp at heq
      exact List.mem_cons_of_mem p
        (ih (fun hmem => hA (List.mem_cons_of_mem a hmem)) u post heq.2)

end Launcher

/-! ## The launcher claims -/

namespace Launcher

/-- C8: for every filesystem state, the discovery loop over the ordered
candidate list (the five joined paths below, in this order) selects the first
candidate that exists and is a regular file. If the candidate at position `i` passes the test and every earlier one fails
it, the loop yields that candidate (so the earliest qualifying one wins);
and whenever the loop yields a path at all, that path is a candidate, passes
the test, and every candidate before it fails the test. -/
theorem discovery_first (env : LaunchEnv) :
    candidates env =
      [ env.join [exeDir env, "..", "dist", "win-unpacked", "AI-Disassembler.exe"],
        env.join [exeDir env, "dist", "win-unpacked", "AI-Disassembler.exe"],
        env.join [exeDir env, "app", "dist", "win-unpacked", "AI-Disassembler.exe"],
        env.join [cwd env, "dist", "win-unpacked", "AI-Disassembler.exe"],
        env.join [cwd env, "app", "dist", "win-unpacked", "AI-Disassembler.exe"] ] ∧
    (∀ (i : Nat) (p : String), (candidates env)[i]? = some p →
      isRegular env.stat p = true →
      (∀ (j : Nat) (q : String), j < i → (candidates env)[j]? = some q →
        isRegular env.stat q = false) →
      frontendExe env.stat (candidates env) = p) ∧
    (frontendExe env.stat (candidates env) ≠ "" →
      ∃ i : Nat, (candidates env)[i]? = some (frontendExe env.stat (candidates env)) ∧
        isRegular env.stat (frontendExe env.stat (candidates env)) = true ∧
        ∀ (j : Nat) (q : String), j < i → (candidates env)[j]? = some q →
          isRegular env.stat q = false) :=
  ⟨rfl, frontendExe_of_first env.stat (candidates env),
    frontendExe_selected env.stat (candidates env)⟩

/-- C8 on a filesystem where the second and the fourth candidate are regular
files: the second is selected. -/
theorem discovery_first_witness :
    (candidates (launchEnv ["/work/dist/win-unpacked/AI-Disassembler.exe",
        "/opt/bridge/dist/win-unpacked/AI-Disassembler.exe"] true))[1]? =
      some "/opt/bridge/dist/win-unpacked/AI-Disassembler.exe" ∧
    isRegular (launchEnv ["/work/dist/win-unpacked/AI-Disassembler.exe",
        "/opt/bridge/dist/win-unpacked/AI-Disassembler.exe"] true).stat
      "/opt/bridge/dist/win-unpacked/AI-Disassembler.exe" = true ∧
    isRegular (launchEnv ["/work/dist/win-unpacked/AI-Disassembler.exe",
        "/opt/bridge/dist/win-unpacked/AI-Disassembler.exe"] true).stat
      "/work/dist/win-unpacked/AI-Disassembler.exe" = true ∧
    isRegular (launchEnv ["/work/dist/win-unpacked/AI-Disassembler.exe",
        "/opt/bridge/dist/win-unpacked/AI-Disassembler.exe"] true).stat
      "/opt/bridge/../dist/win-unpacked/AI-Disassembler.exe" = false ∧
    frontendExe (launchEnv ["/work/dist/win-unpacked/AI-Disassembler.exe",
        "/opt/bridge/dist/win-unpacked/AI-Disassembler.exe"] true).stat
      (candidates (launchEnv ["/work/dist/win-unpacked/AI-Disassembler.exe",
        "/opt/bridge/dist/win-unpacked/AI-Disassembler.exe"] true)) =
      "/opt/bridge/dist/win-unpacked/AI-Disassembler.exe" :=
  ⟨rfl, rfl, rfl, rfl,
    (discovery_first (launchEnv ["/work/dist/win-unpacked/AI-Disassembler.exe",
        "/opt/bridge/dist/win-unpacked/AI-Disassembler.exe"] true)).2.1 1
      "/opt/bridge/dist/win-unpacked/AI-Disassembler.exe" rfl rfl
      (fun j q hj hq => by
        have hj0 : j = 0 := by omega
        subst hj0
        have hq2 : "/opt/bridge/../dist/win-unpacked/AI-Disassembler.exe" = q :=
          Option.some.inj hq
        subst hq2
        rfl)⟩

/-- C9: when no candidate path exists (`os.Stat` fails on each), `main` ends
with `log.Fatalf` and exit status 1. Everything before the fatal message is a
log line, so no front-end is started, no port is bound, no server is started
and nothing is waited for; and the fatal message is the fixed text followed
by the rendered candidate list, so every candidate path occurs in it. -/
theorem no_frontend_fatal (env : LaunchEnv)
    (hnone : ∀ p ∈ candidates env, ∃ e, env.stat p = Except.error e) :
    ∃ (logs : List Event) (msg : String),
      main env = (logs ++ [Event.fatal msg], 1) ∧
      (∀ ev ∈ logs, ∃ m, ev = Event.log m) ∧
      msg = "Could not find frontend executable; tried: " ++ fmtStrings (candidates env) ∧
      (∀ p ∈ candidates env, p.data <:+: msg.data) ∧
      (∀ path dir, Event.start path dir ∉ (main env).1) ∧
      (∀ network address, Event.listen network address ∉ (main env).1) ∧
      (∀ pattern, Event.serve pattern ∉ (main env).1) ∧
      Event.wait ∉ (main env).1 := by
  have hreg : ∀ p ∈ candidates env, isRegular env.stat p = false := by
    intro p hp
    obtain ⟨e, he⟩ := hnone p hp
    unfold isRegular
    rw [he]
  have hexe : frontendExe env.stat (candidates env) = "" :=
    frontendExe_of_none env.stat (candidates env) hreg
  have hmain : main env = (setupLog env ++
      [Event.fatal ("Could not find frontend executable; tried: " ++
        fmtStrings (candidates env))], 1) := by
    unfold main
    simp only [hexe, if_true]
  have hlogs := setupLog_logs env
  refine ⟨setupLog env, _, hmain, hlogs, rfl,
    fun p hp => fmtStrings_infix (candidates env) p hp _, ?_, ?_, ?_, ?_⟩
  · intro path dir hmem
    rw [hmain] at hmem
    rcases List.mem_append.mp hmem with h | h
    · obtain ⟨m, hm⟩ := hlogs _ h
      cases hm
    · simp at h
  · intro network address hmem
    rw [hmain] at hmem
    rcases List.mem_append.mp hmem with h | h
    · obtain ⟨m, hm⟩ := hlogs _ h
      cases hm
    · simp at h
  · intro pattern hmem
    rw [hmain] at hmem
    rcases List.mem_append.mp hmem with h | h
    · obtain ⟨m, hm⟩ := hlogs _ h
      cases hm
    · simp at h
  · intro hmem
    rw [hmain] at hmem
    rcases List.mem_append.mp hmem with h | h
    · obtain ⟨m, hm⟩ := hlogs _ h
      cases hm
    · simp at h

/-- C9 on a filesystem without any of the candidates. -/
theorem no_frontend_fatal_witness :
    (∀ p ∈ candidates (launchEnv [] true),
      ∃ e, (launchEnv [] true).stat p = Except.error e) ∧
    ∃ (logs : List Event) (msg : String),
      main (launchEnv [] true) = (logs ++ [Event.fatal msg], 1) ∧
      (∀ ev ∈ logs, ∃ m, ev = Event.log m) ∧
      msg = "Could not find frontend executable; tried: " ++
        fmtStrings (candidates (launchEnv [] true)) ∧
      (∀ p ∈ candidates (launchEnv [] true), p.data <:+: msg.data) ∧
      (∀ path dir, Event.start path dir ∉ (main (launchEnv [] true)).1) ∧
      (∀ network address, Event.listen network address ∉ (main (launchEnv [] true)).1) ∧
      (∀ pattern, Event.serve pattern ∉ (main (launchEnv [] true)).1) ∧
      Event.wait ∉ (main (launchEnv [] true)).1 :=
  have hnone : ∀ p ∈ candidates (launchEnv [] true),
      ∃ e, (launchEnv [] true).stat p = Except.error e := by
    intro p hp
    have hc : candidates (launchEnv [] true) =
        ["/opt/bridge/../dist/win-unpacked/AI-Disassembler.exe",
          "/opt/bridge/dist/win-unpacked/AI-Disassembler.exe",
          "/opt/bridge/app/dist/win-unpacked/AI-Disassembler.exe",
          "/work/dist/win-unpacked/AI-Disassembler.exe",
          "/work/app/dist/win-unpacked/AI-Disassembler.exe"] := rfl
    rw [hc] at hp
    simp only [List.mem_cons, List.mem_singleton, List.not_mem_nil, or_false] at hp
    rcases hp with rfl | rfl | rfl | rfl | rfl <;>
      exact ⟨"no such file or directory", rfl⟩
  ⟨hnone, no_frontend_fatal (launchEnv [] true) hnone⟩

/-- C10 as stated fails: with the port held by another process and a front-end
executable found, `Start` can fail (here the file cannot be executed). `main`
logs the error and goes on; the bind fails and is not fatal; but no child has
been started, and `Wait` returns `exec: not started` at once, so `main` does
not block on a front-end child. -/
theorem port_in_use_counterexample :
    notExecutableEnv.listen "tcp" ":8080" = Except.error "address already in use" ∧
    frontendExe notExecutableEnv.stat (candidates notExecutableEnv) =
      "/work/dist/win-unpacked/AI-Disassembler.exe" ∧
    notExecutableEnv.start "/work/dist/win-unpacked/AI-Disassembler.exe"
        "/work/dist/win-unpacked" =
      Except.error
        "fork/exec /work/dist/win-unpacked/AI-Disassembler.exe: permission denied" ∧
    main notExecutableEnv =
      ([Event.log "Launching frontend: /work/dist/win-unpacked/AI-Disassembler.exe",
        Event.start "/work/dist/win-unpacked/AI-Disassembler.exe" "/work/dist/win-unpacked",
        Event.log ("Error launching frontend: " ++
          "fork/exec /work/dist/win-unpacked/AI-Disassembler.exe: permission denied"),
        Event.listen "tcp" ":8080",
        Event.log "Port 8080 already in use, assuming server is running",
        Event.wait,
        Event.log "Frontend exited with error: exec: not started"], 0) ∧
    Event.listen "tcp" ":8080" ∈ (main notExecutableEnv).1 ∧
    (∀ pid, Event.exited pid ∉ (main notExecutableEnv).1) := by
  refine ⟨rfl, rfl, rfl, rfl, by decide, ?_⟩
  intro pid hmem
  have htrace : (main notExecutableEnv).1 =
      [Event.log "Launching frontend: /work/dist/win-unpacked/AI-Disassembler.exe",
        Event.start "/work/dist/win-unpacked/AI-Disassembler.exe" "/work/dist/win-unpacked",
        Event.log ("Error launching frontend: " ++
          "fork/exec /work/dist/win-unpacked/AI-Disassembler.exe: permission denied"),
        Event.listen "tcp" ":8080",
        Event.log "Port 8080 already in use, assuming server is running",
        Event.wait,
        Event.log "Frontend exited with error: exec: not started"] := rfl
  rw [htrace] at hmem
  simp at hmem

/-- C10, amended: when the bind of port 8080 is attempted and fails because a
prior instance holds the port, and starting the front-end executable
succeeded with child `pid`, `main` does not treat the failed bind as fatal.
Its trace is: log lines, the start of the front-end, the log line with the
PID, the one bind attempt on `:8080` (the one that fails), the log line saying
the port is in use, the call of `Wait`, which blocks until the child `pid` has
exited, then log lines only; the exit status is 0. So there is no fatal
event, no serve task, and no bind attempt besides the failed one. And in
every run, a serve task is preceded by the bind attempt on `:8080`. -/
theorem port_in_use (env : LaunchEnv) :
    (∀ (e : String) (pid : Nat),
      Event.listen "tcp" ":8080" ∈ (main env).1 →
      env.listen "tcp" ":8080" = Except.error e →
      env.start (frontendExe env.stat (candidates env))
        (env.dir (frontendExe env.stat (candidates env))) = Except.ok pid →
        (∃ pre post : List Event,
          (∀ ev ∈ pre ++ post, ∃ m, ev = Event.log m) ∧
          main env =
            (pre ++ [Event.start (frontendExe env.stat (candidates env))
                  (env.dir (frontendExe env.stat (candidates env))),
                Event.log ("Frontend process started with PID: " ++ toString pid),
                Event.listen "tcp" ":8080",
                Event.log "Port 8080 already in use, assuming server is running",
                Event.wait, Event.exited pid] ++ post, 0)) ∧
        (∀ m, Event.fatal m ∉ (main env).1) ∧
        (∀ pattern, Event.serve pattern ∉ (main env).1) ∧
        listens (main env).1 = [("tcp", ":8080")]) ∧
    (∀ (pre post : List Event) (pattern : String),
      (main env).1 = pre ++ Event.serve pattern :: post →
        Event.listen "tcp" ":8080" ∈ pre) := by
  constructor
  · intro e pid hbind hbusy hstart
    have hfound := found_of_listen env "tcp" ":8080" hbind
    have hmain := main_found env hfound
    simp only [hstart, hbusy] at hmain
    have hpre : ∀ ev ∈ setupLog env ++
        [Event.log ("Launching frontend: " ++ frontendExe env.stat (candidates env))],
        ∃ m, ev = Event.log m := by
      intro ev hev
      rcases List.mem_append.mp hev with h | h
      · exact setupLog_logs env ev h
      · simp at h
        exact ⟨_, h⟩
    have hpost := waitLog_logs env
    have hshape : main env =
        ((setupLog env ++
            [Event.log ("Launching frontend: " ++ frontendExe env.stat (candidates env))]) ++
          [Event.start (frontendExe env.stat (candidates env))
              (env.dir (frontendExe env.stat (candidates env))),
            Event.log ("Frontend process started with PID: " ++ toString pid),
            Event.listen "tcp" ":8080",
            Event.log "Port 8080 already in use, assuming server is running",
            Event.wait, Event.exited pid] ++
          (match env.wait with
            | some waitErr => [Event.log ("Frontend exited with error: " ++ waitErr)]
            | none => []), 0) := by
      rw [hmain]
      simp only [List.append_assoc, List.cons_append, List.nil_append]
    refine ⟨⟨_, _, ?_, hshape⟩, ?_, ?_, ?_⟩
    · intro ev hev
      rcases List.mem_append.mp hev with h | h
      · exact hpre ev h
      · exact hpost ev h
    · intro m hmem
      rw [hshape] at hmem
      rcases List.mem_append.mp hmem with h | h
      · rcases List.mem_append.mp h with h1 | h1
        · exact not_mem_logs _ _ hpre (fun _ hc => by cases hc) h1
        · simp at h1
      · exact not_mem_logs _ _ hpost (fun _ hc => by cases hc) h
    · intro pattern hmem
      rw [hshape] at hmem
      rcases List.mem_append.mp hmem with h | h
      · rcases List.mem_append.mp h with h1 | h1
        · exact not_mem_logs _ _ hpre (fun _ hc => by cases hc) h1
        · simp at h1
      · exact not_mem_logs _ _ hpost (fun _ hc => by cases hc) h
    · rw [hshape]
      simp only [listens_append, listens_logs _ hpre, listens_logs _ hpost]
      rfl
  · intro pre post pattern heq
    have hmem : Event.serve pattern ∈ (main env).1 := by
      rw [heq]
      exact List.mem_append_right _ (List.mem_cons_self _ _)
    by_cases hfound : frontendExe env.stat (candidates env) = ""
    · rw [main_not_found env hfound] at hmem
      rcases List.mem_append.mp hmem with h | h
      · exact absurd h
          (not_mem_logs _ _ (setupLog_logs env) (fun _ hc => by cases hc))
      · simp at h
    · have htrace := congrArg Prod.fst (main_found env hfound)
      simp only at htrace
      rw [heq] at htrace
      refine listen_before
        (setupLog env ++
          [Event.log ("Launching frontend: " ++ frontendExe env.stat (candidates env)),
            Event.start (frontendExe env.stat (candidates env))
              (env.dir (frontendExe env.stat (candidates env))),
            (match env.start (frontendExe env.stat (candidates env))
                (env.dir (frontendExe env.stat (candidates env))) with
              | Except.error startErr =>
                Event.log ("Error launching frontend: " ++ startErr)
              | Except.ok pid =>
                Event.log ("Frontend process started with PID: " ++ toString pid))])
        ((match env.listen "tcp" ":8080" with
            | Except.error _ =>
              Event.log "Port 8080 already in use, assuming server is running"
            | Except.ok _ => Event.serve "/radare2") :: Event.wait ::
          (match env.start (frontendExe env.stat (candidates env))
              (env.dir (frontendExe env.stat (candidates env))) with
            | Except.error _ => [Event.log "Frontend exited with error: exec: not started"]
            | Except.ok pid =>
              Event.exited pid ::
                (match env.wait with
                  | some waitErr => [Event.log ("Frontend exited with error: " ++ waitErr)]
                  | none => [])))
        (Event.listen "tcp" ":8080") (Event.serve pattern)
        ?_ (by simp) pre post ?_
      · intro hA
        rcases List.mem_append.mp hA with h | h
        · exact not_mem_logs _ _ (setupLog_logs env) (fun _ hc => by cases hc) h
        · cases hst : env.start (frontendExe env.stat (candidates env))
            (env.dir (frontendExe env.stat (candidates env))) <;>
            simp [hst] at h
      · rw [htrace]
        simp only [List.append_assoc, List.cons_append, List.nil_append]

/-- C10, amended, on a filesystem with the fourth candidate present, the child
started with PID 4242 and the port held by another process. -/
theorem port_in_use_witness :
    Event.listen "tcp" ":8080" ∈
      (main (launchEnv ["/work/dist/win-unpacked/AI-Disassembler.exe"] false)).1 ∧
    (launchEnv ["/work/dist/win-unpacked/AI-Disassembler.exe"] false).listen "tcp" ":8080" =
      Except.error "address already in use" ∧
    (launchEnv ["/work/dist/win-unpacked/AI-Disassembler.exe"] false).start
      (frontendExe (launchEnv ["/work/dist/win-unpacked/AI-Disassembler.exe"] false).stat
        (candidates (launchEnv ["/work/dist/win-unpacked/AI-Disassembler.exe"] false)))
      ((launchEnv ["/work/dist/win-unpacked/AI-Disassembler.exe"] false).dir
        (frontendExe (launchEnv ["/work/dist/win-unpacked/AI-Disassembler.exe"] false).stat
          (candidates (launchEnv ["/work/dist/win-unpacked/AI-Disassembler.exe"] false)))) =
      Except.ok 4242 ∧
    main (launchEnv ["/work/dist/win-unpacked/AI-Disassembler.exe"] false) =
      ([Event.log "Launching frontend: /work/dist/win-unpacked/AI-Disassembler.exe",
        Event.start "/work/dist/win-unpacked/AI-Disassembler.exe" "/work/dist/win-unpacked",
        Event.log "Frontend process started with PID: 4242",
        Event.listen "tcp" ":8080",
        Event.log "Port 8080 already in use, assuming server is running",
        Event.wait,
        Event.exited 4242], 0) ∧
    (∀ m, Event.fatal m ∉
      (main (launchEnv ["/work/dist/win-unpacked/AI-Disassembler.exe"] false)).1) ∧
    (∀ pattern, Event.serve pattern ∉
      (main (launchEnv ["/work/dist/win-unpacked/AI-Disassembler.exe"] false)).1) ∧
    listens (main (launchEnv ["/work/dist/win-unpacked/AI-Disassembler.exe"] false)).1 =
      [("tcp", ":8080")] :=
  ⟨by decide, rfl, rfl, rfl,
    ((port_in_use (launchEnv ["/work/dist/win-unpacked/AI-Disassembler.exe"] false)).1
      "address already in use" 4242 (by decide) rfl rfl).2⟩

end Launcher

end MetysAI
